import Mathlib

/-!
Verification development for the Tableau metadata extractor.

The Python source is shallowly embedded: pure functions become Lean
functions over `String` / `List Char`, Python `dict`s become association
lists, Python sets become `Finset String` where only set-membership is
observed, and the float arithmetic of the comparison report is modelled
exactly over `ℚ`.  Character case mapping models Python's `str.upper` /
`str.lower` on the ASCII range (all constants in the source are ASCII).
Where the source iterates over a Python `set` literal (whose iteration
order is unspecified), the embedding iterates in the order the literal is
written; no theorem below depends on that order.
-/

/-! ### Python string primitives -/

/-- Python `str.strip(chars)` on a character list: remove characters of
`cs` from both ends. -/
def pyStripL (cs : List Char) (s : List Char) : List Char :=
  ((s.dropWhile (fun c => c ∈ cs)).reverse.dropWhile (fun c => c ∈ cs)).reverse

/-- Python `pat in s`: `pat` occurs as a contiguous run of `s`. -/
def isSubstr (pat : List Char) : List Char → Bool
  | [] => pat.isEmpty
  | c :: t => pat.isPrefixOf (c :: t) || isSubstr pat t

/-- Worker for `countSub`, with fuel bounding the number of steps. -/
def countSubAux (pat : List Char) : Nat → List Char → Nat
  | 0, _ => 0
  | _ + 1, [] => 0
  | fuel + 1, c :: t =>
    if pat.isPrefixOf (c :: t) then 1 + countSubAux pat fuel (t.drop (pat.length - 1))
    else countSubAux pat fuel t

/-- Python `s.count(pat)` for nonempty `pat`: number of non-overlapping
occurrences, scanning left to right. -/
def countSub (pat : List Char) (s : List Char) : Nat := countSubAux pat s.length s

/-- Worker for `splitSep`, with fuel bounding the number of steps. -/
def splitSepAux (sep : List Char) : Nat → List Char → List Char → List (List Char)
  | 0, s, acc => [acc.reverse ++ s]
  | _ + 1, [], acc => [acc.reverse]
  | fuel + 1, c :: rest, acc =>
    if sep.isPrefixOf (c :: rest) then
      acc.reverse :: splitSepAux sep fuel ((c :: rest).drop sep.length) []
    else splitSepAux sep fuel rest (c :: acc)

/-- Python `s.split(sep)` for a nonempty separator `sep`: split on each
non-overlapping occurrence, left to right. -/
def splitSep (sep s : List Char) : List (List Char) := splitSepAux sep s.length s []

/-- ASCII model of Python `str.lower` (per-character). -/
def lowerL (s : List Char) : List Char := s.map Char.toLower

/-- ASCII model of Python `str.upper` (per-character). -/
def upperL (s : List Char) : List Char := s.map Char.toUpper

/-- Python regex `\s` on the ASCII range. -/
def pySpace (c : Char) : Bool :=
  c = ' ' || c = '\t' || c = '\n' || c = '\x0d' || c = '\x0b' || c = '\x0c'

/-- Python regex `\w` on the ASCII range. -/
def pyWord (c : Char) : Bool :=
  ('A' ≤ c && c ≤ 'Z') || ('a' ≤ c && c ≤ 'z') || ('0' ≤ c && c ≤ '9') || c = '_'

/-- A character of the regex class `[A-Z_]`. -/
def upperOrUnd (c : Char) : Bool := ('A' ≤ c && c ≤ 'Z') || c = '_'

/-! ### Name Normalizer — `XMLMetadataExtractor._clean_field_name` -/

/-- The recognized aggregation-or-temporal prefixes of
`_clean_field_name` (source line 232). -/
def cleanPrefixes : List (List Char) :=
  [['n','o','n','e'], ['s','u','m'], ['a','v','g'], ['m','i','n'], ['m','a','x'],
   ['c','o','u','n','t'], ['c','o','u','n','t','d'], ['a','t','t','r'],
   ['u','s','r'], ['c','a','l','c','u','l','a','t','i','o','n'],
   ['y','e','a','r'], ['m','o','n','t','h'], ['d','a','y'],
   ['w','e','e','k'], ['q','u','a','r','t','e','r']]

/-- The characters of `"federated"`. -/
def federatedChars : List Char := ['f','e','d','e','r','a','t','e','d']

/-- Embedding of `XMLMetadataExtractor._clean_field_name`
(src/extractors/xml_extractor.py lines 211-240), over `List Char`. -/
def cleanFieldNameL (name : List Char) : List Char :=
  if name.isEmpty then []
  else
    -- Handle multipart names like [ds].[field]
    let n1 :=
      if ['['].isPrefixOf name && [']'].isSuffixOf name then
        if isSubstr [']', '.', '['] name then
          pyStripL ['[', ']'] ((splitSep [']', '.', '['] name).getLastD [])
        else pyStripL ['[', ']'] name
      else name
    -- Handle federated datasource prefixes
    let n2 :=
      if isSubstr ['.'] n1 && !(['['].isPrefixOf n1) then
        let parts := splitSep ['.'] n1
        if parts.length > 1 &&
            ((parts.headD []).length > 15 ||
              isSubstr federatedChars (lowerL (parts.headD []))) then
          parts.getLastD []
        else n1
      else n1
    -- Handle prefixes like none:Category:nk or sum:Sales:qk
    let n3 :=
      if isSubstr [':'] n2 then
        let parts := splitSep [':'] n2
        if cleanPrefixes.contains (lowerL (parts.headD [])) then
          if parts.length ≥ 2 then parts[1]! else n2
        else if parts.length > 1 then parts.headD []
        else n2
      else n2
    pyStripL ['[', ']', ' '] n3

/-- Embedding: `_clean_field_name` as a `String` function. -/
def clean_field_name (name : String) : String :=
  String.mk (cleanFieldNameL name.data)

/-! ### Formula Analyzer — `XMLMetadataExtractor._analyze_formula`

The regular expressions of the source are compiled, by hand, into
left-to-right scanners with the exact backtracking semantics of the
patterns involved (all character classes are negated single-character
classes, so each match is determined by the next occurrence of the
closing character). -/

/-- Worker for `bracketTokens`. -/
def bracketTokensAux : Nat → List Char → List (List Char)
  | 0, _ => []
  | _ + 1, [] => []
  | fuel + 1, c :: rest =>
    if c = '[' then
      let tok := rest.takeWhile (fun ch => ch ≠ ']')
      match rest.drop tok.length with
      | ']' :: rest2 =>
        if tok.isEmpty then bracketTokensAux fuel rest
        else tok :: bracketTokensAux fuel rest2
      | _ => bracketTokensAux fuel rest
    else bracketTokensAux fuel rest

/-- Embedding: `re.findall(r'\[([^\]]+)\]', s)`: every bracket-delimited token,
left to right, non-overlapping (source line 510). -/
def bracketTokens (s : List Char) : List (List Char) := bracketTokensAux s.length s

/-- The literal characters of `[Parameters].[`. -/
def paramLit : List Char :=
  ['[','P','a','r','a','m','e','t','e','r','s',']','.','[']

/-- Worker for `paramTokens`. -/
def paramTokensAux : Nat → List Char → List (List Char)
  | 0, _ => []
  | _ + 1, [] => []
  | fuel + 1, c :: rest =>
    if paramLit.isPrefixOf (c :: rest) then
      let afterLit := (c :: rest).drop paramLit.length
      let tok := afterLit.takeWhile (fun ch => ch ≠ ']')
      match afterLit.drop tok.length with
      | ']' :: rest2 =>
        if tok.isEmpty then paramTokensAux fuel rest
        else tok :: paramTokensAux fuel rest2
      | _ => paramTokensAux fuel rest
    else paramTokensAux fuel rest

/-- Embedding: `re.findall(r'\[Parameters\]\.\[([^\]]+)\]', s)` (source line 513). -/
def paramTokens (s : List Char) : List (List Char) := paramTokensAux s.length s

/-- The keyword alternative of the LOD pattern. -/
inductive LodKw
  | fixed
  | incl
  | excl
deriving DecidableEq, Repr

/-- Characters of the (uppercased) LOD keyword. -/
def lodKwChars : LodKw → List Char
  | .fixed => ['F','I','X','E','D']
  | .incl => ['I','N','C','L','U','D','E']
  | .excl => ['E','X','C','L','U','D','E']

/-- Embedding: `lod_match.group(1).upper()` as stored in the analysis result. -/
def lodKwString : LodKw → String
  | .fixed => "FIXED"
  | .incl => "INCLUDE"
  | .excl => "EXCLUDE"

/-- Case-insensitive match of `(FIXED|INCLUDE|EXCLUDE)` at the head of
`s`; the three alternatives start with distinct letters, so at most one
matches. -/
def matchLodKw (s : List Char) : Option (LodKw × List Char) :=
  if upperL (s.take 5) = lodKwChars .fixed then some (.fixed, s.drop 5)
  else if upperL (s.take 7) = lodKwChars .incl then some (.incl, s.drop 7)
  else if upperL (s.take 7) = lodKwChars .excl then some (.excl, s.drop 7)
  else none

/-- The three capture groups of a successful LOD match. -/
structure LodMatch where
  kw : LodKw
  dims : List Char
  expr : List Char
deriving DecidableEq, Repr

/-- Worker for `lodSearch`. -/
def lodSearchAux : Nat → List Char → Option LodMatch
  | 0, _ => none
  | _ + 1, [] => none
  | fuel + 1, c :: rest =>
    if c = '{' then
      match matchLodKw rest with
      | some (kw, afterKw) =>
        match afterKw with
        | w :: _ =>
          if pySpace w then
            let upToColon := afterKw.takeWhile (fun ch => ch ≠ ':')
            match afterKw.drop upToColon.length with
            | ':' :: afterColon =>
              let ex := afterColon.takeWhile (fun ch => ch ≠ '}')
              match afterColon.drop ex.length with
              | '}' :: _ =>
                if ex.isEmpty then lodSearchAux fuel rest
                else some ⟨kw, upToColon.dropWhile pySpace, ex⟩
              | _ => lodSearchAux fuel rest
            | _ => lodSearchAux fuel rest
          else lodSearchAux fuel rest
        | [] => lodSearchAux fuel rest
      | none => lodSearchAux fuel rest
    else lodSearchAux fuel rest

/-- Embedding: `re.search(r'\{(FIXED|INCLUDE|EXCLUDE)\s+([^:]*):([^}]+)\}', s,
re.IGNORECASE)` (source line 517): leftmost match, with the greedy
`\s+` run separated from the `[^:]*` dimension group. -/
def lodSearch (s : List Char) : Option LodMatch := lodSearchAux s.length s

/-- Embedding: `TABLE_CALC_FUNCTIONS` (source lines 103-110), in the order written;
the source iterates the Python set, whose order is unspecified. -/
def tableCalcFunctions : List String :=
  ["RUNNING_SUM", "RUNNING_AVG", "RUNNING_COUNT", "RUNNING_MIN", "RUNNING_MAX",
   "WINDOW_SUM", "WINDOW_AVG", "WINDOW_COUNT", "WINDOW_MIN", "WINDOW_MAX",
   "WINDOW_MEDIAN", "WINDOW_STDEV", "WINDOW_STDEVP", "WINDOW_VAR", "WINDOW_VARP",
   "INDEX", "FIRST", "LAST", "SIZE", "LOOKUP", "PREVIOUS_VALUE",
   "RANK", "RANK_DENSE", "RANK_MODIFIED", "RANK_PERCENTILE", "RANK_UNIQUE",
   "TOTAL", "SCRIPT_BOOL", "SCRIPT_INT", "SCRIPT_REAL", "SCRIPT_STR"]

/-- Embedding: `AGGREGATE_FUNCTIONS` (source lines 96-100), in the order written. -/
def aggregateFunctions : List String :=
  ["SUM", "AVG", "MIN", "MAX", "COUNT", "COUNTD", "MEDIAN",
   "STDEV", "STDEVP", "VAR", "VARP", "CORR", "COVAR", "COVARP",
   "ATTR", "COLLECT", "PERCENTILE"]

/-- The `for func in TABLE_CALC_FUNCTIONS: if func in formula_upper:
... break` loop (source lines 538-543): first hit wins. -/
def tableCalcFind (U : List Char) : Option String :=
  tableCalcFunctions.find? (fun fn => isSubstr fn.data U)

/-- Worker for `funcTokens`; the `Bool` records whether the previous
character was a word character (for `\b`). -/
def funcTokensAux : Nat → Bool → List Char → List (List Char)
  | 0, _, _ => []
  | _ + 1, _, [] => []
  | fuel + 1, prevW, c :: rest =>
    if !prevW && upperOrUnd c then
      let run := c :: rest.takeWhile upperOrUnd
      let afterWs := (rest.drop (run.length - 1)).dropWhile pySpace
      match afterWs with
      | '(' :: rest2 => run :: funcTokensAux fuel false rest2
      | _ => funcTokensAux fuel (pyWord c) rest
    else funcTokensAux fuel (pyWord c) rest

/-- Embedding: `re.findall(r'\b([A-Z_]+)\s*\(', formula_upper)` (source line 546). -/
def funcTokens (s : List Char) : List (List Char) := funcTokensAux s.length false s

/-- Worker for `dedupFirst`. -/
def dedupFirstAux : List (List Char) → List (List Char) → List (List Char)
  | _, [] => []
  | seen, x :: xs =>
    if seen.contains x then dedupFirstAux seen xs
    else x :: dedupFirstAux (x :: seen) xs

/-- Model of `list(set(functions))` (source line 548): duplicates removed;
since the Python set order is unspecified, the embedding keeps first
occurrences in order.  No theorem depends on this order. -/
def dedupFirst (l : List (List Char)) : List (List Char) := dedupFirstAux [] l

/-- Python `str.strip()` (whitespace, ASCII model). -/
def pyStripWs (s : List Char) : List Char :=
  ((s.dropWhile pySpace).reverse.dropWhile pySpace).reverse

/-- Embedding: `CalculationType` (src/models/metadata_models.py lines 65-74). -/
inductive CalculationType
  | simple
  | row_level
  | aggregate
  | lod_fixed
  | lod_include
  | lod_exclude
  | table_calc
  | combined
deriving DecidableEq, Repr

/-- The LOD branch of `_analyze_formula` (source lines 530-535). -/
def lodTypeOf : LodKw → CalculationType
  | .fixed => .lod_fixed
  | .incl => .lod_include
  | .excl => .lod_exclude

/-- The result dictionary of `_analyze_formula`; keys that may be absent
(`lod_*`, `table_calc_type`) are `Option`s whose `none` matches the
`.get` defaults used by the caller. -/
structure FormulaAnalysis where
  calculation_type : CalculationType
  aggregations : List String
  functions : List String
  referenced_fields : List String
  referenced_parameters : List String
  lod_type : Option String
  lod_dimensions : List String
  lod_expression : Option String
  table_calc_type : Option String
  complexity_score : Nat
  has_nested : Bool
deriving DecidableEq, Repr

/-- The `for agg in AGGREGATE_FUNCTIONS` loop (source lines 551-555):
collects hits and promotes a still-SIMPLE kind to AGGREGATE. -/
def aggScan (U : List Char) (t : CalculationType) : List String × CalculationType :=
  aggregateFunctions.foldl
    (fun st agg =>
      if isSubstr agg.data U then
        (st.1 ++ [agg], if st.2 = .simple then .aggregate else st.2)
      else st)
    ([], t)

/-- Embedding of `XMLMetadataExtractor._analyze_formula`
(src/extractors/xml_extractor.py lines 495-578). -/
def analyze_formula (formula : String) : FormulaAnalysis :=
  let f := formula.data
  let U := upperL f
  let lod := lodSearch f
  let afterLod : CalculationType :=
    match lod with
    | some m => lodTypeOf m.kw
    | none => .simple
  let tableHit := tableCalcFind U
  let afterTable : CalculationType :=
    if tableHit.isSome then .table_calc else afterLod
  let rawFuncs := funcTokens U
  let aggRes := aggScan U afterTable
  let ifScore : Nat :=
    if isSubstr "IF ".data U || isSubstr "IIF(".data U then
      5 + (if countSub "IF ".data U > 2 || countSub "ELSEIF".data U > 1 then 10 else 0)
    else 0
  let caseScore : Nat :=
    if isSubstr "CASE ".data U then
      5 + (if countSub "WHEN ".data U > 3 then 10 else 0)
    else 0
  let nested : Bool := countSub ['{'] f > 1 || rawFuncs.length > 3
  { calculation_type := aggRes.2
    aggregations := aggRes.1
    functions := (dedupFirst rawFuncs).map String.mk
    referenced_fields := (bracketTokens f).map String.mk
    referenced_parameters := (paramTokens f).map String.mk
    lod_type := lod.map (fun m => lodKwString m.kw)
    lod_dimensions :=
      (lod.map (fun m =>
        (bracketTokens m.dims).map (fun d => String.mk (cleanFieldNameL d)))).getD []
    lod_expression := lod.map (fun m => String.mk (pyStripWs m.expr))
    table_calc_type := tableHit
    complexity_score :=
      min ((if lod.isSome then 30 else 0) + (if tableHit.isSome then 40 else 0) +
        ifScore + caseScore + (if nested then 15 else 0)) 100
    has_nested := nested }

/-! ### Metadata model (src/models/metadata_models.py)

Only the fields observed by the functions under verification are
carried.  `display_name` models the `caption or name` property (an empty
caption is falsy in Python). -/

/-- Embedding: `FieldMetadata` (the fields observed downstream). -/
structure FieldM where
  name : String
  caption : Option String := none
deriving DecidableEq, Repr

/-- Embedding: `CalculatedFieldMetadata` (the fields observed downstream). -/
structure CalcFieldM where
  name : String
  caption : Option String := none
  formula : String
  referenced_fields : List String := []
  referenced_parameters : List String := []
  complexity_score : Nat := 0
deriving DecidableEq, Repr

/-- Embedding: `DataSourceMetadata` (the fields observed downstream). -/
structure DataSourceM where
  name : String
  caption : Option String := none
  fields : List FieldM := []
  calculated_fields : List CalcFieldM := []
deriving DecidableEq, Repr

/-- One entry of a rows/columns shelf (`_parse_shelf` emits dictionaries
with `field`, `shelf`, `aggregation`, `original`). -/
structure ShelfEntry where
  field : String
  aggregation : String := "none"
deriving DecidableEq, Repr

/-- One entry of an encoding shelf (`_parse_encoding`). -/
structure EncEntry where
  field : String
deriving DecidableEq, Repr

/-- Embedding: `AxisMetadata` (only presence is observed by the validator). -/
structure AxisM where
  axis_type : String
deriving DecidableEq, Repr

/-- Embedding: `VisualMetadata` (the fields observed downstream); `chart_type`
carries the enum's string value. -/
structure VisualM where
  chart_type : String := "automatic"
  rows : List ShelfEntry := []
  columns : List ShelfEntry := []
  color : Option EncEntry := none
  size : Option EncEntry := none
  label : List EncEntry := []
  detail : List EncEntry := []
  x_axis : Option AxisM := none
  y_axis : Option AxisM := none
deriving DecidableEq, Repr

/-- Embedding: `FilterMetadata` (the fields observed by the validator);
`filter_type` carries the enum's string value. -/
structure FilterM where
  field : String
  filter_type : String := "categorical"
  include_values : List String := []
  exclude_values : List String := []
  range_min : Option ℚ := none
  range_max : Option ℚ := none
deriving DecidableEq, Repr

/-- Embedding: `SheetMetadata` (the fields observed downstream). -/
structure SheetM where
  name : String
  datasource_name : Option String := none
  visual : Option VisualM := none
  all_fields_used : List String := []
  filters : List FilterM := []
deriving DecidableEq, Repr

/-- Embedding: `DashboardZoneMetadata` (the fields observed downstream). -/
structure DashboardZoneM where
  zone_type : String
  name : Option String := none
  worksheet_name : Option String := none
  is_floating : Bool := false
deriving DecidableEq, Repr

/-- Embedding: `DashboardActionMetadata` (the fields observed downstream). -/
structure DashboardActionM where
  name : String
  action_type : String := "filter"
  source_worksheets : List String := []
  target_worksheets : List String := []
deriving DecidableEq, Repr

/-- Embedding: `DashboardMetadata` (the fields observed downstream). -/
structure DashboardM where
  name : String
  zones : List DashboardZoneM := []
  worksheets : List String := []
  actions : List DashboardActionM := []
deriving DecidableEq, Repr

/-- Embedding: `ParameterMetadata` (the fields observed downstream). -/
structure ParameterM where
  name : String
  caption : Option String := none
deriving DecidableEq, Repr

/-- Embedding: `RelationshipMetadata`. -/
structure RelationshipM where
  relationship_type : String
  source_type : String
  source_name : String
  target_type : String
  target_name : String
  relationship_details : List (String × String) := []
  description : String := ""
deriving DecidableEq, Repr

/-- Embedding: `WorkbookMetadata` (the fields observed by the validator). -/
structure WorkbookM where
  name : String
  datasources : List DataSourceM := []
  sheets : List SheetM := []
  dashboards : List DashboardM := []
  parameters : List ParameterM := []
  relationships : List RelationshipM := []
deriving DecidableEq, Repr

/-- The `display_name` property: `self.caption or self.name` (an empty
caption falls back to the name, as in Python truthiness). -/
def displayName (caption : Option String) (name : String) : String :=
  match caption with
  | some c => if c = "" then name else c
  | none => name

/-! ### Dashboard layout classification — `_parse_single_dashboard` -/

/-- The layout-type computation of `_parse_single_dashboard`
(src/extractors/xml_extractor.py lines 1290-1293). -/
def layout_type_of (zones : List DashboardZoneM) : String :=
  if zones.any (fun z => z.is_floating) then
    if zones.all (fun z => z.is_floating) then "floating" else "mixed"
  else "tiled"

/-! ### Worksheet field-usage sets — `_parse_single_worksheet`

The three Python `set()` accumulators of lines 688-736 become `Finset
String`; the final `list(s - {""})` conversions drop the empty string,
and only the set of elements of those lists is observed. -/

/-- The three accumulators `all_fields`, `dimensions`, `measures`. -/
structure UsageSets where
  all_fields : Finset String
  dims : Finset String
  meas : Finset String

/-- One iteration of the rows/columns loops (lines 694-706): the field is
added to `all_fields`, and to `dimensions` when its aggregation is
`"none"`, otherwise to `measures`. -/
def addShelfEntry (st : UsageSets) (e : ShelfEntry) : UsageSets :=
  { all_fields := insert e.field st.all_fields
    dims := if e.aggregation = "none" then insert e.field st.dims else st.dims
    meas := if e.aggregation = "none" then st.meas else insert e.field st.meas }

/-- The whole accumulation of `_parse_single_worksheet` lines 688-715:
rows, columns, then color/size/label/detail into `all_fields` only. -/
def collectUsage (visual : Option VisualM) : UsageSets :=
  match visual with
  | none => ⟨∅, ∅, ∅⟩
  | some v =>
    let st := v.rows.foldl addShelfEntry ⟨∅, ∅, ∅⟩
    let st := v.columns.foldl addShelfEntry st
    let st :=
      match v.color with
      | some enc => { st with all_fields := insert enc.field st.all_fields }
      | none => st
    let st :=
      match v.size with
      | some enc => { st with all_fields := insert enc.field st.all_fields }
      | none => st
    let st := v.label.foldl
      (fun st enc => { st with all_fields := insert enc.field st.all_fields }) st
    v.detail.foldl
      (fun st enc => { st with all_fields := insert enc.field st.all_fields }) st

/-- The set of elements of the emitted `all_fields_used` list
(`list(all_fields - {""})`, line 736). -/
def sheet_all_fields_used (visual : Option VisualM) : Finset String :=
  (collectUsage visual).all_fields.erase ""

/-- The set of elements of the emitted `dimensions_used` list (line 737). -/
def sheet_dimensions_used (visual : Option VisualM) : Finset String :=
  (collectUsage visual).dims.erase ""

/-- The set of elements of the emitted `measures_used` list (line 738). -/
def sheet_measures_used (visual : Option VisualM) : Finset String :=
  (collectUsage visual).meas.erase ""

/-! ### Relationship Builder — `XMLMetadataExtractor._build_relationships`

The two usage maps accumulated during structural parsing
(`_field_to_sheets`, `_sheet_to_dashboards`) are association lists; the
builder only ever looks them up by key. -/

/-- ASCII model of Python `str.title()` (used for the action
description): an alphabetic character is uppercased after a non-alphabetic
one and lowercased otherwise. -/
def pyTitleAux : Bool → List Char → List Char
  | _, [] => []
  | prevAlpha, c :: t =>
    (if c.isAlpha then (if prevAlpha then c.toLower else c.toUpper) else c) ::
      pyTitleAux c.isAlpha t

/-- Embedding: `str.title()` on `String`s. -/
def pyTitle (s : String) : String := String.mk (pyTitleAux false s.data)

/-- The `field_to_sheet` edge (source lines 1437-1444). -/
def fieldSheetRel (f : FieldM) (sheetName : String) : RelationshipM :=
  { relationship_type := "field_to_sheet"
    source_type := "field"
    source_name := f.name
    target_type := "sheet"
    target_name := sheetName
    description := "Field '" ++ displayName f.caption f.name ++
      "' is used in sheet '" ++ sheetName ++ "'" }

/-- The `calc_to_field` edge (source lines 1450-1457). -/
def calcFieldRel (c : CalcFieldM) (refField : String) : RelationshipM :=
  { relationship_type := "calc_to_field"
    source_type := "calculated_field"
    source_name := c.name
    target_type := "field"
    target_name := refField
    description := "Calculated field '" ++ displayName c.caption c.name ++
      "' references '" ++ refField ++ "'" }

/-- The `sheet_to_dashboard` edge (source lines 1463-1470). -/
def sheetDashRel (s : SheetM) (dashName : String) : RelationshipM :=
  { relationship_type := "sheet_to_dashboard"
    source_type := "sheet"
    source_name := s.name
    target_type := "dashboard"
    target_name := dashName
    description := "Sheet '" ++ s.name ++ "' is embedded in dashboard '" ++
      dashName ++ "'" }

/-- The `action` edge (source lines 1477-1489). -/
def actionRel (d : DashboardM) (a : DashboardActionM) (sourceWs targetWs : String) :
    RelationshipM :=
  { relationship_type := "action"
    source_type := "sheet"
    source_name := sourceWs
    target_type := "sheet"
    target_name := targetWs
    relationship_details :=
      [("action_name", a.name), ("action_type", a.action_type), ("dashboard", d.name)]
    description := pyTitle a.action_type ++ " action '" ++ a.name ++ "' links '" ++
      sourceWs ++ "' to '" ++ targetWs ++ "'" }

/-- The `parameter` edge (source lines 1497-1504). -/
def paramRel (p : ParameterM) (c : CalcFieldM) : RelationshipM :=
  { relationship_type := "parameter"
    source_type := "parameter"
    source_name := p.name
    target_type := "calculated_field"
    target_name := c.name
    description := "Parameter '" ++ displayName p.caption p.name ++
      "' is used in calculated field '" ++ displayName c.caption c.name ++ "'" }

/-- Embedding of `_build_relationships` (src/extractors/xml_extractor.py
lines 1422-1506), with the same accumulating-append loop structure. -/
def build_relationships (datasources : List DataSourceM) (sheets : List SheetM)
    (dashboards : List DashboardM) (parameters : List ParameterM)
    (fieldToSheets : List (String × List String))
    (sheetToDashboards : List (String × List String)) : List RelationshipM :=
  let rels : List RelationshipM := []
  -- Field to sheet relationships
  let rels := datasources.foldl (fun acc ds =>
    ds.fields.foldl (fun acc f =>
      match fieldToSheets.lookup f.name with
      | some sheetNames =>
        sheetNames.foldl (fun acc sn => acc ++ [fieldSheetRel f sn]) acc
      | none => acc) acc) rels
  -- Calculated field dependencies
  let rels := datasources.foldl (fun acc ds =>
    ds.calculated_fields.foldl (fun acc c =>
      c.referenced_fields.foldl (fun acc ref => acc ++ [calcFieldRel c ref]) acc)
      acc) rels
  -- Sheet to dashboard relationships
  let rels := sheets.foldl (fun acc s =>
    match sheetToDashboards.lookup s.name with
    | some dashNames =>
      dashNames.foldl (fun acc dn => acc ++ [sheetDashRel s dn]) acc
    | none => acc) rels
  -- Dashboard action relationships
  let rels := dashboards.foldl (fun acc d =>
    d.actions.foldl (fun acc a =>
      a.source_worksheets.foldl (fun acc sws =>
        a.target_worksheets.foldl (fun acc tws => acc ++ [actionRel d a sws tws])
          acc) acc) acc) rels
  -- Parameter usage
  let rels := parameters.foldl (fun acc p =>
    datasources.foldl (fun acc ds =>
      ds.calculated_fields.foldl (fun acc c =>
        if c.referenced_parameters.contains p.name then acc ++ [paramRel p c]
        else acc) acc) acc) rels
  rels

/-- List concatenation of the images of a function (used to state the
order of the builder's output). -/
def concatMap {α β : Type} (g : α → List β) : List α → List β
  | [] => []
  | x :: t => g x ++ concatMap g t

/-- The `field_to_sheet` component, in its iteration order. -/
def fieldSheetEdges (datasources : List DataSourceM)
    (fieldToSheets : List (String × List String)) : List RelationshipM :=
  concatMap (fun ds =>
    concatMap (fun f =>
      match fieldToSheets.lookup f.name with
      | some sheetNames => sheetNames.map (fieldSheetRel f)
      | none => []) ds.fields) datasources

/-- The `calc_to_field` component, in its iteration order. -/
def calcFieldEdges (datasources : List DataSourceM) : List RelationshipM :=
  concatMap (fun ds =>
    concatMap (fun c => c.referenced_fields.map (calcFieldRel c))
      ds.calculated_fields) datasources

/-- The `sheet_to_dashboard` component, in its iteration order. -/
def sheetDashEdges (sheets : List SheetM)
    (sheetToDashboards : List (String × List String)) : List RelationshipM :=
  concatMap (fun s =>
    match sheetToDashboards.lookup s.name with
    | some dashNames => dashNames.map (sheetDashRel s)
    | none => []) sheets

/-- The `action` component, in its iteration order. -/
def actionEdges (dashboards : List DashboardM) : List RelationshipM :=
  concatMap (fun d =>
    concatMap (fun a =>
      concatMap (fun sws => a.target_worksheets.map (actionRel d a sws))
        a.source_worksheets) d.actions) dashboards

/-- The `parameter` component, in its iteration order. -/
def parameterEdges (parameters : List ParameterM)
    (datasources : List DataSourceM) : List RelationshipM :=
  concatMap (fun p =>
    concatMap (fun ds =>
      concatMap (fun c =>
        if c.referenced_parameters.contains p.name then [paramRel p c] else [])
        ds.calculated_fields) datasources) parameters

/-! ### Comparator — `ComparisonResult.get_match_percentage`

The Python float arithmetic is modelled exactly over `ℚ`; `round(x, 2)`
is round-half-to-even at two decimal places. -/

/-- The four per-severity difference counters of `ComparisonResult`. -/
structure DiffCounts where
  critical : Nat
  error : Nat
  warning : Nat
  info : Nat
deriving DecidableEq, Repr

/-- The weighted difference count (src/utils/comparison.py lines 87-92). -/
def weighted_diff (c : DiffCounts) : ℚ :=
  c.critical * 4 + c.error * 2 + c.warning * 1 + c.info * (1 / 2)

/-- Twice the weighted difference count, as a natural number (used to
state hypotheses decidably). -/
def weighted2 (c : DiffCounts) : Nat :=
  c.critical * 8 + c.error * 4 + c.warning * 2 + c.info

/-- Round half to even, the rounding of Python's `round`. -/
def roundHalfEven (x : ℚ) : ℤ :=
  if x - ⌊x⌋ < 1 / 2 then ⌊x⌋
  else if 1 / 2 < x - ⌊x⌋ then ⌊x⌋ + 1
  else if ⌊x⌋ % 2 = 0 then ⌊x⌋ else ⌊x⌋ + 1

/-- Python `round(x, 2)` over `ℚ`. -/
def pyRound2 (x : ℚ) : ℚ := (roundHalfEven (x * 100) : ℚ) / 100

/-- Embedding of `ComparisonResult.get_match_percentage`
(src/utils/comparison.py lines 80-95), as a function of the
`total_items_compared` summary entry and the four counters. -/
def get_match_percentage (total_items : Nat) (c : DiffCounts) : ℚ :=
  if total_items = 0 then 100
  else pyRound2 (max 0 (100 - weighted_diff c / total_items * 10))

/-! ### Validator — `MetadataValidator.validate`

The full validation walk of src/utils/validation.py, with the issue list
and counters threaded in the source's statement order. -/

/-- Python `s.startswith(pre)` (list-based, kernel-reducible). -/
def pyStartsWith (s pre : String) : Bool := pre.data.isPrefixOf s.data

/-- Embedding: `ValidationLevel`. -/
inductive VLevel
  | info
  | warning
  | error
  | critical
deriving DecidableEq, BEq, Repr

/-- Embedding: `ValidationIssue`. -/
structure VIssue where
  level : VLevel
  category : String
  item : String
  message : String
  suggestion : Option String := none
deriving DecidableEq, Repr

/-- Embedding: `ValidationResult` (the `passed_items` subtraction is over `ℤ`,
matching Python's unbounded integers). -/
structure VResult where
  is_valid : Bool := true
  issues : List VIssue := []
  warnings_count : Nat := 0
  errors_count : Nat := 0
  critical_count : Nat := 0
  checked_items : Nat := 0
  passed_items : ℤ := 0
deriving DecidableEq, Repr

/-- Embedding: `ValidationResult.add_issue` (src/utils/validation.py lines 53-64). -/
def add_issue (r : VResult) (i : VIssue) : VResult :=
  let r := { r with issues := r.issues ++ [i] }
  match i.level with
  | .warning => { r with warnings_count := r.warnings_count + 1 }
  | .error => { r with errors_count := r.errors_count + 1, is_valid := false }
  | .critical => { r with critical_count := r.critical_count + 1, is_valid := false }
  | .info => r

/-- Embedding: `result.checked_items += 1`. -/
def chk (r : VResult) : VResult := { r with checked_items := r.checked_items + 1 }

/-- Embedding: `_validate_structure` (lines 162-196). -/
def validate_structure (m : WorkbookM) (r : VResult) : VResult :=
  let r := chk r
  let r :=
    if m.name = "" then
      add_issue r ⟨.error, "structure", "workbook", "Workbook name is missing",
        some "Ensure the .twbx file is valid"⟩
    else r
  let r := chk r
  let r :=
    if m.datasources = [] then
      add_issue r ⟨.warning, "structure", "datasources",
        "No data sources found in workbook",
        some "Verify the workbook has connected data sources"⟩
    else r
  let r := chk r
  if m.sheets = [] then
    add_issue r ⟨.warning, "structure", "sheets",
      "No worksheets found in workbook",
      some "Verify the workbook has visible worksheets"⟩
  else r

/-- The name set `all_field_names` of `_validate_calculated_field`
(lines 246-247): field names and calculated-field names of the data
source (only membership is observed). -/
def dsFieldNames (ds : DataSourceM) : List String :=
  ds.fields.map (fun f => f.name) ++ ds.calculated_fields.map (fun cf => cf.name)

/-- Whether a referenced field name is counted as missing by
`_validate_calculated_field`: not skipped as a parameter or special
field, and absent from the data source's names. -/
def badRef (names : List String) (refField : String) : Bool :=
  !(pyStartsWith refField "Parameter" || pyStartsWith refField ":") &&
    !(names.contains refField)

/-- The body of the referenced-field loop of `_validate_calculated_field`
(lines 249-262). -/
def refCheck (names : List String) (cname : String) (r : VResult)
    (refField : String) : VResult :=
  let r := chk r
  if pyStartsWith refField "Parameter" || pyStartsWith refField ":" then r
  else if names.contains refField then r
  else
    add_issue r ⟨.warning, "calculated_field", cname,
      "Referenced field '" ++ refField ++ "' not found in data source",
      some "Field may have been renamed or removed"⟩

/-- Embedding: `_validate_calculated_field` (lines 226-272). -/
def validate_calculated_field (c : CalcFieldM) (ds : DataSourceM) (r : VResult) :
    VResult :=
  let r := chk r
  if c.formula = "" then
    add_issue r ⟨.error, "calculated_field", c.name,
      "Calculated field '" ++ c.name ++ "' has no formula", none⟩
  else
    let r := c.referenced_fields.foldl (refCheck (dsFieldNames ds) c.name) r
    if c.complexity_score > 70 then
      add_issue r ⟨.info, "calculated_field", c.name,
        "Complex calculation detected", 
        some "Consider breaking into smaller calculations for maintainability"⟩
    else r

/-- Embedding: `_validate_datasource` (lines 198-224). -/
def validate_datasource (ds : DataSourceM) (r : VResult) : VResult :=
  let r := chk r
  let r :=
    if ds.name = "" then
      add_issue r ⟨.error, "datasource", "unknown", "Data source has no name", none⟩
    else r
  let r := chk r
  let r :=
    if ds.fields = [] ∧ ds.calculated_fields = [] then
      add_issue r ⟨.warning, "datasource", ds.name,
        "Data source '" ++ ds.name ++ "' has no fields",
        some "Verify the data connection is valid"⟩
    else r
  ds.calculated_fields.foldl (fun r c => validate_calculated_field c ds r) r

/-- Embedding: `_validate_visual` (lines 324-358). -/
def validate_visual (v : VisualM) (sheetName : String) (r : VResult) : VResult :=
  let r := chk r
  let r :=
    if v.chart_type = "automatic" then
      add_issue r ⟨.info, "visual", sheetName, "Chart type is set to Automatic",
        some "Explicit chart type provides more predictable behavior"⟩
    else r
  let r := chk r
  let r :=
    if v.rows = [] ∧ v.columns = [] then
      add_issue r ⟨.info, "visual", sheetName, "No fields on rows or columns", none⟩
    else r
  let r := if v.x_axis.isSome then chk r else r
  if v.y_axis.isSome then chk r else r

/-- Embedding: `_validate_filter` (lines 360-400). -/
def validate_filter (f : FilterM) (sheetName : String) (r : VResult) : VResult :=
  let r := chk r
  if f.field = "" then
    add_issue r ⟨.error, "filter", sheetName, "Filter has no field specified", none⟩
  else
    let r :=
      if f.filter_type = "categorical" then
        let r := chk r
        if f.include_values = [] ∧ f.exclude_values = [] then
          add_issue r ⟨.info, "filter", sheetName ++ "/" ++ f.field,
            "Categorical filter on '" ++ f.field ++ "' has no explicit values",
            some "May include all values or use show all"⟩
        else r
      else r
    if f.filter_type = "range" then
      let r := chk r
      if f.range_min = none ∧ f.range_max = none then
        add_issue r ⟨.warning, "filter", sheetName ++ "/" ++ f.field,
          "Range filter on '" ++ f.field ++ "' has no min or max", none⟩
      else r
    else r

/-- Embedding: `_validate_sheet` (lines 274-322). -/
def validate_sheet (s : SheetM) (m : WorkbookM) (r : VResult) : VResult :=
  let r := chk r
  if s.name = "" then
    add_issue r ⟨.error, "sheet", "unknown", "Sheet has no name", none⟩
  else
    let r :=
      match s.visual with
      | some v => validate_visual v s.name r
      | none => r
    let r := s.filters.foldl (fun r f => validate_filter f s.name r) r
    let r := chk r
    let r :=
      if s.all_fields_used = [] then
        add_issue r ⟨.info, "sheet", s.name,
          "Sheet '" ++ s.name ++ "' has no fields on shelves",
          some "Sheet may be blank or using only text/images"⟩
      else r
    let r := chk r
    match s.datasource_name with
    | some dsn =>
      if dsn = "" then r
      else if (m.datasources.map (fun ds => ds.name)).contains dsn then r
      else
        add_issue r ⟨.warning, "sheet", s.name,
          "Referenced datasource '" ++ dsn ++ "' not found", none⟩
    | none => r

/-- Embedding: `_validate_dashboard` (lines 402-453). -/
def validate_dashboard (d : DashboardM) (m : WorkbookM) (r : VResult) : VResult :=
  let r := chk r
  if d.name = "" then
    add_issue r ⟨.error, "dashboard", "unknown", "Dashboard has no name", none⟩
  else
    let r := chk r
    let r :=
      if d.zones = [] then
        add_issue r ⟨.warning, "dashboard", d.name,
          "Dashboard '" ++ d.name ++ "' has no zones", none⟩
      else r
    let sheetNames := m.sheets.map (fun s => s.name)
    let r := d.worksheets.foldl (fun r wsName =>
      let r := chk r
      if sheetNames.contains wsName then r
      else
        add_issue r ⟨.warning, "dashboard", d.name,
          "Referenced worksheet '" ++ wsName ++ "' not found", none⟩) r
    d.actions.foldl (fun r a =>
      let r := chk r
      a.source_worksheets.foldl (fun r src =>
        if sheetNames.contains src || d.worksheets.contains src then r
        else
          add_issue r ⟨.warning, "dashboard_action", a.name,
            "Action source worksheet '" ++ src ++ "' not found", none⟩) r) r

/-- The field-existence search of `_validate_relationships`
(lines 469-478): a datasource whose fields or calculated fields contain
the name. -/
def relFieldFound (m : WorkbookM) (name : String) : Bool :=
  m.datasources.any (fun ds =>
    ds.fields.any (fun f => f.name = name) ||
      ds.calculated_fields.any (fun c => c.name = name))

/-- Embedding: `_validate_relationships` (lines 455-486). -/
def validate_relationships (m : WorkbookM) (r : VResult) : VResult :=
  let r := chk r
  m.relationships.foldl (fun r rel =>
    let r := chk r
    if rel.source_type = "field" then
      if relFieldFound m rel.source_name then r
      else
        add_issue r ⟨.info, "relationship", rel.source_name,
          "Relationship references unknown field '" ++ rel.source_name ++ "'", none⟩
    else r) r

/-- Embedding of `MetadataValidator.validate`
(src/utils/validation.py lines 127-160). -/
def validate (m : WorkbookM) : VResult :=
  let r : VResult := {}
  let r := validate_structure m r
  let r := m.datasources.foldl (fun r ds => validate_datasource ds r) r
  let r := m.sheets.foldl (fun r s => validate_sheet s m r) r
  let r := m.dashboards.foldl (fun r d => validate_dashboard d m r) r
  let r := validate_relationships m r
  { r with passed_items :=
      (r.checked_items : ℤ) - r.errors_count - r.critical_count }

/-- The number of warning-level issues with category `calculated_field`
in a validation result. -/
def calcWarnCount (r : VResult) : Nat :=
  (r.issues.filter
    (fun i => i.level = VLevel.warning ∧ i.category = "calculated_field")).length

/-- Whether a referenced field name of a calculated field in `ds` is
counted as missing. -/
def refMissing (ds : DataSourceM) (refField : String) : Bool :=
  badRef (dsFieldNames ds) refField

/-- The number of missing references of one calculated field. -/
def missingRefCount (ds : DataSourceM) (c : CalcFieldM) : Nat :=
  (c.referenced_fields.filter (refMissing ds)).length

/-- The total number of missing (calculated field, referenced field)
pairs of a workbook. -/
def totalMissingRefs (m : WorkbookM) : Nat :=
  (m.datasources.map (fun ds =>
    ((ds.calculated_fields.map (missingRefCount ds)).sum))).sum

/-! ### Markup element model and structural parsing (C9, C10)

`lxml` elements become a nested inductive of tag, attribute list and
child list; `find(".//t")` / `findall(".//t")` search the descendants
(excluding the element itself) in document order, as `lxml` does. -/

/-- An XML element: tag, attributes, children. -/
inductive XElem
  | mk (tag : String) (attrs : List (String × String)) (children : List XElem)

/-- The tag of an element. -/
def xtag : XElem → String
  | .mk t _ _ => t

/-- The attributes of an element. -/
def xattrs : XElem → List (String × String)
  | .mk _ a _ => a

/-- The children of an element (Python `list(elem)`). -/
def xchildren : XElem → List XElem
  | .mk _ _ c => c

/-- Embedding: `elem.get(key)`. -/
def getAttr (e : XElem) (key : String) : Option String := (xattrs e).lookup key

/-- Embedding: `elem.get(key, default)`. -/
def getAttrD (e : XElem) (key dflt : String) : String := (getAttr e key).getD dflt

mutual

/-- All descendants of an element, in document order (the node set of
`elem.findall(".//*")`). -/
def descElems : XElem → List XElem
  | .mk _ _ cs => descList cs

/-- All members of a forest together with their descendants, in document
order. -/
def descList : List XElem → List XElem
  | [] => []
  | c :: cs => c :: (descElems c ++ descList cs)

end

/-- Embedding: `elem.findall(".//tag")`: descendants with the given tag, in
document order. -/
def findallDesc (tag : String) (e : XElem) : List XElem :=
  (descElems e).filter (fun c => xtag c = tag)

/-- Embedding: `elem.find(".//tag")`: the first descendant with the given tag. -/
def findDesc (tag : String) (e : XElem) : Option XElem :=
  (descElems e).find? (fun c => xtag c = tag)

/-- One join-clause triple (`{"operator": ..., "left": ..., "right": ...}`,
source lines 374-378). -/
structure JoinClause where
  operator : Option String
  left : Option String
  right : Option String
deriving DecidableEq, Repr

/-- One join record (source lines 385-390). -/
structure JoinM where
  joinType : Option String
  left_table : Option String
  right_table : Option String
  clauses : List JoinClause
deriving DecidableEq, Repr

/-- The clause triple built from one comparison expression
(src/extractors/xml_extractor.py lines 365-378): the operands come from
the first two children and are left unset when fewer than two exist. -/
def clauseOfExpr (expression : XElem) : JoinClause :=
  { operator := getAttr expression "op"
    left :=
      if (xchildren expression).length ≥ 2 then
        some (getAttrD ((xchildren expression).headD (.mk "" [] [])) "op" "")
      else none
    right :=
      if (xchildren expression).length ≥ 2 then
        some (getAttrD ((xchildren expression).getD 1 (.mk "" [] [])) "op" "")
      else none }

/-- Embedding of `_parse_joins` (src/extractors/xml_extractor.py lines
353-392).  `findall(".//relation[@join]")` keeps descendants with tag
`relation` and a `join` attribute present. -/
def parse_joins (dsElem : XElem) : List JoinM :=
  ((descElems dsElem).filter
      (fun rel => xtag rel = "relation" && (getAttr rel "join").isSome)).map
    (fun relation =>
      let clauses := (findallDesc "clause" relation).filterMap (fun clause =>
        match findDesc "expression" clause with
        | some expression => some (clauseOfExpr expression)
        | none => none)
      let childRelations := (xchildren relation).filter (fun c => xtag c = "relation")
      { joinType := getAttr relation "join"
        left_table :=
          match childRelations.head? with
          | some c => getAttr c "name"
          | none => none
        right_table :=
          match childRelations[1]? with
          | some c => getAttr c "name"
          | none => none
        clauses := clauses })

/-- Embedding: `DataType` (src/models/metadata_models.py lines 12-21). -/
inductive DataTypeE
  | dstring
  | dinteger
  | dreal
  | dboolean
  | ddate
  | ddatetime
  | dspatial
  | dunknown
deriving DecidableEq, Repr

/-- Embedding: `DATATYPE_MAP` (src/extractors/xml_extractor.py lines 49-57). -/
def DATATYPE_MAP : List (String × DataTypeE) :=
  [("string", .dstring), ("integer", .dinteger), ("real", .dreal),
   ("boolean", .dboolean), ("date", .ddate), ("datetime", .ddatetime),
   ("spatial", .dspatial)]

/-- Embedding: `FieldRole`. -/
inductive FieldRoleE
  | dimension
  | measure
deriving DecidableEq, Repr

/-- Embedding: `AggregationType`. -/
inductive AggE
  | asum
  | aavg
  | acount
  | acountd
  | amin
  | amax
  | amedian
  | aattr
  | astdev
  | astdevp
  | avar
  | avarp
  | apercentile
  | acollect
  | anone
deriving DecidableEq, Repr

/-- Embedding: `AGGREGATION_MAP` (src/extractors/xml_extractor.py lines 60-75). -/
def AGGREGATION_MAP : List (String × AggE) :=
  [("sum", .asum), ("avg", .aavg), ("count", .acount), ("countd", .acountd),
   ("min", .amin), ("max", .amax), ("median", .amedian), ("attr", .aattr),
   ("stdev", .astdev), ("stdevp", .astdevp), ("var", .avar), ("varp", .avarp),
   ("percentile", .apercentile), ("collect", .acollect)]

/-- The `FieldMetadata` record built by `_parse_fields`. -/
structure ParsedField where
  name : String
  caption : Option String
  data_type : DataTypeE
  role : FieldRoleE
  default_aggregation : AggE
  is_hidden : Bool
  semantic_role : Option String
deriving DecidableEq, Repr

/-- Worker for `subFederated`. -/
def subFederatedAux : Nat → List Char → List Char
  | 0, s => s
  | _ + 1, [] => []
  | fuel + 1, c :: rest =>
    if ['[','f','e','d','e','r','a','t','e','d','.'].isPrefixOf (c :: rest) then
      let afterLit := (c :: rest).drop 11
      let tok := afterLit.takeWhile (fun ch => ch ≠ ']')
      if tok.isEmpty then c :: subFederatedAux fuel rest
      else
        match afterLit.drop tok.length with
        | ']' :: '.' :: rest2 => subFederatedAux fuel rest2
        | _ => c :: subFederatedAux fuel rest
    else c :: subFederatedAux fuel rest

/-- Embedding: `re.sub(r'\[federated\.[^\]]+\]\.', '', s)` (source line 585). -/
def subFederated (s : List Char) : List Char := subFederatedAux s.length s

/-- Worker for `subBrackets`. -/
def subBracketsAux : Nat → List Char → List Char
  | 0, s => s
  | _ + 1, [] => []
  | fuel + 1, c :: rest =>
    if c = '[' then
      let tok := rest.takeWhile (fun ch => ch ≠ ']')
      match rest.drop tok.length with
      | ']' :: rest2 =>
        if tok.isEmpty then c :: subBracketsAux fuel rest
        else '[' :: (cleanFieldNameL tok ++ ']' :: subBracketsAux fuel rest2)
      | _ => c :: subBracketsAux fuel rest
    else c :: subBracketsAux fuel rest

/-- Embedding: `re.sub(r'\[([^\]]+)\]', clean_field, s)` (source line 593). -/
def subBrackets (s : List Char) : List Char := subBracketsAux s.length s

/-- Embedding of `_make_formula_readable` (source lines 580-595). -/
def make_formula_readable (formula : String) : String :=
  String.mk (subBrackets (subFederated formula.data))

/-- The `CalculatedFieldMetadata` record built by
`_parse_calculated_fields`. -/
structure ParsedCalcField where
  name : String
  caption : Option String
  formula : String
  formula_readable : String
  data_type : DataTypeE
  role : FieldRoleE
  calculation_type : CalculationType
  aggregations_used : List String
  functions_used : List String
  referenced_fields : List String
  referenced_parameters : List String
  lod_type : Option String
  lod_dimensions : List String
  lod_expression : Option String
  table_calc_type : Option String
  complexity_score : Nat
  has_nested_calculations : Bool
deriving DecidableEq, Repr

/-- The body of the `_parse_fields` loop for one column element
(source lines 407-442), `none` when the column is skipped. -/
def parseFieldOfColumn (col : XElem) : Option ParsedField :=
  let name := getAttrD col "name" ""
  -- Skip calculated fields (handled separately)
  if (findDesc "calculation" col).isSome then none
  -- Skip internal Tableau fields
  else if name = "" || pyStartsWith name "[Calculation_" || pyStartsWith name "[:" then
    none
  else
    some
      { name := clean_field_name name
        caption := getAttr col "caption"
        data_type := (DATATYPE_MAP.lookup (getAttrD col "datatype" "string")).getD .dunknown
        role := if getAttrD col "role" "dimension" = "measure" then .measure
          else .dimension
        default_aggregation :=
          (AGGREGATION_MAP.lookup (getAttrD col "aggregation" "")).getD .anone
        is_hidden := getAttr col "hidden" = some "true"
        semantic_role := getAttr col "semantic-role" }

/-- The body of the `_parse_calculated_fields` loop for one column
element (source lines 450-491), `none` when the column is skipped. -/
def parseCalcFieldOfColumn (col : XElem) : Option ParsedCalcField :=
  let name := getAttrD col "name" ""
  match findDesc "calculation" col with
  | none => none
  | some calcElem =>
    let formula := getAttrD calcElem "formula" ""
    if formula = "" then none
    else
      let analysis := analyze_formula formula
      some
        { name := clean_field_name name
          caption := getAttr col "caption"
          formula := formula
          formula_readable := make_formula_readable formula
          data_type :=
            (DATATYPE_MAP.lookup (getAttrD col "datatype" "string")).getD .dunknown
          role := if getAttrD col "role" "measure" = "measure" then .measure
            else .dimension
          calculation_type := analysis.calculation_type
          aggregations_used := analysis.aggregations
          functions_used := analysis.functions
          referenced_fields := analysis.referenced_fields.map clean_field_name
          referenced_parameters := analysis.referenced_parameters
          lod_type := analysis.lod_type
          lod_dimensions := analysis.lod_dimensions
          lod_expression := analysis.lod_expression
          table_calc_type := analysis.table_calc_type
          complexity_score := analysis.complexity_score
          has_nested_calculations := analysis.has_nested }

/-- The `_parse_fields` loop over a given column list. -/
def parse_fields_list (cols : List XElem) : List ParsedField :=
  cols.filterMap parseFieldOfColumn

/-- The `_parse_calculated_fields` loop over a given column list. -/
def parse_calc_fields_list (cols : List XElem) : List ParsedCalcField :=
  cols.filterMap parseCalcFieldOfColumn

/-- Embedding: `ds_elem.findall(".//column")` (source lines 407 and 450). -/
def columnsOf (dsElem : XElem) : List XElem := findallDesc "column" dsElem

/-- Embedding of `_parse_fields` (source lines 403-444). -/
def parse_fields (dsElem : XElem) : List ParsedField :=
  parse_fields_list (columnsOf dsElem)

/-- Embedding of `_parse_calculated_fields` (source lines 446-493). -/
def parse_calculated_fields (dsElem : XElem) : List ParsedCalcField :=
  parse_calc_fields_list (columnsOf dsElem)

/-- A data source with two calculated fields, each referencing exactly
one field name that is absent from the data source. -/
def dsTwoMissingRefs : DataSourceM :=
  { name := "ds",
    fields := [{ name := "Sales" }],
    calculated_fields :=
      [{ name := "CalcA", formula := "[MissingA]", referenced_fields := ["MissingA"] },
       { name := "CalcB", formula := "[MissingB]", referenced_fields := ["MissingB"] }] }

/-- A workbook containing `dsTwoMissingRefs`. -/
def wbTwoMissingRefs : WorkbookM :=
  { name := "wb", datasources := [dsTwoMissingRefs] }

/-- A workbook whose only integrity anomaly is a single calculated field
with a single missing referenced field. -/
def wbOneMissingRef : WorkbookM :=
  { name := "wb",
    datasources :=
      [{ name := "ds",
         fields := [{ name := "Sales" }],
         calculated_fields :=
           [{ name := "Ratio", formula := "[Missing]/[Sales]",
              referenced_fields := ["Missing", "Sales"] }] }] }

/-! ### General lemmas -/

/-- A `foldl` that appends a block per element is the initial accumulator
followed by the concatenation of the blocks. -/
theorem foldl_append_of {α β : Type} {f : List β → α → List β} {g : α → List β}
    (h : ∀ acc x, f acc x = acc ++ g x) :
    ∀ (l : List α) (acc : List β), l.foldl f acc = acc ++ concatMap g l := by
  intro l
  induction l with
  | nil => intro acc; simp [concatMap]
  | cons x t ih =>
    intro acc
    rw [List.foldl_cons, h, ih, concatMap, List.append_assoc]

/-- Special case: appending one element per item is `map`. -/
theorem foldl_app_single {α β : Type} (g : α → β) (l : List α) (acc : List β) :
    l.foldl (fun a x => a ++ [g x]) acc = acc ++ l.map g := by
  induction l generalizing acc with
  | nil => simp
  | cons x t ih => simp [ih]

/-- Summing an indicator over a list counts the filtered elements. -/
theorem sum_ite_eq_length_filter {α : Type} (p : α → Bool) (l : List α) :
    (l.map (fun x => if p x then 1 else 0)).sum = (l.filter p).length := by
  induction l with
  | nil => rfl
  | cons x t ih =>
    cases h : p x
    · simp [List.filter_cons, h, ih]
    · simp [List.filter_cons, h, ih]
      omega

/-! ### C2 — Name Normalizer idempotence -/

/-- C2 (counterexample): the name normalizer is not idempotent on every
input string.  `"[federatedxyz.b"` starts with `[` but does not end with
`]`, so the first pass leaves it alone except for the final strip, which
removes the guarding `[`; the second pass then sees a federated-prefixed
dotted name and reduces it to `"b"`. -/
theorem clean_field_name_not_idempotent :
    clean_field_name (clean_field_name "[federatedxyz.b") ≠
      clean_field_name "[federatedxyz.b" := by decide

/-- C2 (amended): the three stated equalities hold, and normalization is
idempotent on those examples (their outputs normalize to themselves);
but idempotence fails for some strings, e.g. `"[federatedxyz.b"`. -/
theorem clean_field_name_examples :
    clean_field_name "[ds].[Sales]" = "Sales" ∧
    clean_field_name "sum:Sales:qk" = "Sales" ∧
    clean_field_name "[Calculation_123]" = "Calculation_123" ∧
    clean_field_name "Sales" = "Sales" ∧
    clean_field_name "Calculation_123" = "Calculation_123" := by decide

/-! ### C4 — complexity score bounds -/

/-- C4: for every formula string the complexity score lies in `[0, 100]`:
every detection rule adds a non-negative amount (the score is a natural
number) and the final value is clamped with `min · 100`. -/
theorem analyze_formula_complexity_bounds (formula : String) :
    0 ≤ (analyze_formula formula).complexity_score ∧
      (analyze_formula formula).complexity_score ≤ 100 :=
  ⟨Nat.zero_le _, Nat.min_le_right _ _⟩

/-! ### C5 — dashboard layout classification -/

/-- C5: `layout_type` is `"floating"` iff the dashboard has zones and all
of them are floating, `"mixed"` iff some but not all zones are floating,
and `"tiled"` otherwise — in particular for a dashboard with zero zones
(where the code's `any` check fails before the `all` check is reached). -/
theorem layout_type_characterization (zones : List DashboardZoneM) :
    (layout_type_of zones = "floating" ↔
      zones ≠ [] ∧ ∀ z ∈ zones, z.is_floating = true) ∧
    (layout_type_of zones = "mixed" ↔
      (∃ z ∈ zones, z.is_floating = true) ∧ (∃ z ∈ zones, z.is_floating = false)) ∧
    (layout_type_of zones = "tiled" ↔ ∀ z ∈ zones, z.is_floating = false) := by
  unfold layout_type_of
  by_cases hany : zones.any (fun z => z.is_floating) = true
  · rw [if_pos hany]
    rw [List.any_eq_true] at hany
    obtain ⟨z0, hz0mem, hz0⟩ := hany
    by_cases hall : zones.all (fun z => z.is_floating) = true
    · rw [if_pos hall]
      rw [List.all_eq_true] at hall
      refine ⟨⟨fun _ => ⟨List.ne_nil_of_mem hz0mem, hall⟩, fun _ => rfl⟩, ?_, ?_⟩
      · constructor
        · intro habs; exact absurd habs (by decide)
        · rintro ⟨_, ⟨z1, hm1, hf1⟩⟩
          have := hall z1 hm1
          rw [this] at hf1
          cases hf1
      · constructor
        · intro habs; exact absurd habs (by decide)
        · intro hforall
          have := hforall z0 hz0mem
          rw [hz0] at this
          cases this
    · rw [if_neg hall]
      have hex : ∃ z ∈ zones, z.is_floating = false := by
        by_contra hno
        push_neg at hno
        apply hall
        rw [List.all_eq_true]
        intro z hz
        cases hb : z.is_floating with
        | true => rfl
        | false => exact absurd hb (hno z hz)
      refine ⟨?_, ⟨fun _ => ⟨⟨z0, hz0mem, hz0⟩, hex⟩, fun _ => rfl⟩, ?_⟩
      · constructor
        · intro habs; exact absurd habs (by decide)
        · rintro ⟨_, hallt⟩
          obtain ⟨z1, hm1, hf1⟩ := hex
          have := hallt z1 hm1
          rw [this] at hf1
          cases hf1
      · constructor
        · intro habs; exact absurd habs (by decide)
        · intro hforall
          have := hforall z0 hz0mem
          rw [hz0] at this
          cases this
  · rw [if_neg hany]
    have hallf : ∀ z ∈ zones, z.is_floating = false := by
      intro z hz
      cases hb : z.is_floating with
      | false => rfl
      | true => exact absurd (List.any_eq_true.mpr ⟨z, hz, hb⟩) hany
    refine ⟨?_, ?_, ⟨fun _ => hallf, fun _ => rfl⟩⟩
    · constructor
      · intro habs; exact absurd habs (by decide)
      · rintro ⟨hne, hallt⟩
        obtain ⟨z0, hz0⟩ := List.exists_mem_of_ne_nil zones hne
        have h1 := hallf z0 hz0
        have h2 := hallt z0 hz0
        rw [h2] at h1
        cases h1
    · constructor
      · intro habs; exact absurd habs (by decide)
      · rintro ⟨⟨z1, hm1, ht1⟩, _⟩
        have := hallf z1 hm1
        rw [this] at ht1
        cases ht1

/-! ### C6 — field-usage superset invariant -/

/-- The rows/columns accumulation preserves `dims ∪ meas ⊆ all_fields`. -/
theorem addShelf_fold_inv (entries : List ShelfEntry) (st : UsageSets)
    (h : st.dims ∪ st.meas ⊆ st.all_fields) :
    (entries.foldl addShelfEntry st).dims ∪ (entries.foldl addShelfEntry st).meas ⊆
      (entries.foldl addShelfEntry st).all_fields := by
  induction entries generalizing st with
  | nil => exact h
  | cons e t ih =>
    rw [List.foldl_cons]
    apply ih
    unfold addShelfEntry
    by_cases ha : e.aggregation = "none"
    · simp only [ha, if_pos]
      rw [Finset.insert_union]
      exact Finset.insert_subset_insert _ h
    · rw [if_neg ha, if_neg ha]
      rw [Finset.union_insert]
      exact Finset.insert_subset_insert _ h

/-- Folds that only insert into `all_fields` preserve the invariant. -/
theorem allonly_fold_inv {α : Type} (fld : α → String) (l : List α) (st : UsageSets)
    (h : st.dims ∪ st.meas ⊆ st.all_fields) :
    (l.foldl (fun st enc => { st with all_fields := insert (fld enc) st.all_fields })
        st).dims ∪
      (l.foldl (fun st enc => { st with all_fields := insert (fld enc) st.all_fields })
        st).meas ⊆
      (l.foldl (fun st enc => { st with all_fields := insert (fld enc) st.all_fields })
        st).all_fields := by
  induction l generalizing st with
  | nil => exact h
  | cons e t ih =>
    rw [List.foldl_cons]
    exact ih _ (h.trans (Finset.subset_insert _ _))

/-- The invariant holds for the full accumulation of
`_parse_single_worksheet`. -/
theorem collectUsage_inv (visual : Option VisualM) :
    (collectUsage visual).dims ∪ (collectUsage visual).meas ⊆
      (collectUsage visual).all_fields := by
  cases visual with
  | none => simp [collectUsage]
  | some v =>
    unfold collectUsage
    have h0 : (⟨∅, ∅, ∅⟩ : UsageSets).dims ∪ (⟨∅, ∅, ∅⟩ : UsageSets).meas ⊆
        (⟨∅, ∅, ∅⟩ : UsageSets).all_fields := by simp
    have h1 := addShelf_fold_inv v.rows _ h0
    have h2 := addShelf_fold_inv v.columns _ h1
    have h3 : ∀ (st : UsageSets), st.dims ∪ st.meas ⊆ st.all_fields →
        ((match v.color with
          | some enc => { st with all_fields := insert enc.field st.all_fields }
          | none => st) : UsageSets).dims ∪
          (match v.color with
           | some enc => { st with all_fields := insert enc.field st.all_fields }
           | none => st).meas ⊆
          (match v.color with
           | some enc => { st with all_fields := insert enc.field st.all_fields }
           | none => st).all_fields := by
      intro st h
      cases v.color with
      | none => exact h
      | some enc => exact h.trans (Finset.subset_insert _ _)
    have h4 : ∀ (st : UsageSets), st.dims ∪ st.meas ⊆ st.all_fields →
        ((match v.size with
          | some enc => { st with all_fields := insert enc.field st.all_fields }
          | none => st) : UsageSets).dims ∪
          (match v.size with
           | some enc => { st with all_fields := insert enc.field st.all_fields }
           | none => st).meas ⊆
          (match v.size with
           | some enc => { st with all_fields := insert enc.field st.all_fields }
           | none => st).all_fields := by
      intro st h
      cases v.size with
      | none => exact h
      | some enc => exact h.trans (Finset.subset_insert _ _)
    exact allonly_fold_inv _ v.detail _
      (allonly_fold_inv _ v.label _ (h4 _ (h3 _ h2)))

/-- C6: the set of `all_fields_used` of a parsed worksheet contains the
union of `dimensions_used` and `measures_used`. -/
theorem fields_used_superset (visual : Option VisualM) :
    sheet_dimensions_used visual ∪ sheet_measures_used visual ⊆
      sheet_all_fields_used visual := by
  intro x hx
  rw [Finset.mem_union] at hx
  unfold sheet_all_fields_used
  rw [Finset.mem_erase]
  rcases hx with hx | hx
  · unfold sheet_dimensions_used at hx
    rw [Finset.mem_erase] at hx
    exact ⟨hx.1, collectUsage_inv visual (Finset.mem_union_left _ hx.2)⟩
  · unfold sheet_measures_used at hx
    rw [Finset.mem_erase] at hx
    exact ⟨hx.1, collectUsage_inv visual (Finset.mem_union_right _ hx.2)⟩

/-! ### C1 — LOD versus table-calculation precedence -/

/-- The aggregation scan never changes a calculation kind that is not
SIMPLE (it only promotes SIMPLE to AGGREGATE). -/
theorem aggScan_snd_of_ne_simple (U : List Char) (t : CalculationType)
    (h : t ≠ .simple) : (aggScan U t).2 = t := by
  unfold aggScan
  suffices hgen : ∀ (l : List String) (st : List String × CalculationType),
      st.2 = t → (l.foldl
        (fun st agg =>
          if isSubstr agg.data U then
            (st.1 ++ [agg], if st.2 = .simple then .aggregate else st.2)
          else st) st).2 = t by
    exact hgen aggregateFunctions ([], t) rfl
  intro l
  induction l with
  | nil => intro st hst; exact hst
  | cons agg rest ih =>
    intro st hst
    rw [List.foldl_cons]
    by_cases hhit : isSubstr agg.data U = true
    · rw [if_pos hhit]
      apply ih
      simp only
      rw [hst, if_neg h]
    · rw [if_neg hhit]
      exact ih st hst

/-- C1 (amended): the table-calculation scan runs after the LOD check and
overwrites the calculation kind unconditionally — including an
already-set LOD kind.  For a formula whose LOD pattern matched, the
resulting kind is the LOD kind only when no table-calculation function
name occurs in the uppercased text; when one occurs, the kind is
`table_calc`. -/
theorem analyze_formula_lod_tablecalc_precedence (formula : String) (m : LodMatch)
    (h : lodSearch formula.data = some m) :
    (analyze_formula formula).calculation_type =
      (if (tableCalcFind (upperL formula.data)).isSome then CalculationType.table_calc
       else lodTypeOf m.kw) := by
  simp only [analyze_formula, h]
  cases htc : tableCalcFind (upperL formula.data) with
  | none =>
    simp only [htc, Option.isSome_none, Bool.false_eq_true, if_false]
    exact aggScan_snd_of_ne_simple _ _ (by cases m.kw <;> simp [lodTypeOf])
  | some fn =>
    simp only [htc, Option.isSome_some, if_true]
    exact aggScan_snd_of_ne_simple _ _ (by simp)

/-- C1 (witness): a formula that is both LOD-wrapped and contains a
table-calculation function name; the theorem applies and the kind is
`table_calc`. -/
theorem analyze_formula_lod_tablecalc_precedence_witness :
    (analyze_formula
        "\x7bFIXED [A]:SUM([Sales])\x7d + RUNNING_SUM([Qty])").calculation_type =
      (if (tableCalcFind
            (upperL "\x7bFIXED [A]:SUM([Sales])\x7d + RUNNING_SUM([Qty])".data)).isSome
       then CalculationType.table_calc
       else lodTypeOf LodKw.fixed) :=
  analyze_formula_lod_tablecalc_precedence
    "\x7bFIXED [A]:SUM([Sales])\x7d + RUNNING_SUM([Qty])"
    ⟨LodKw.fixed, ['[', 'A', ']'], "SUM([Sales])".data⟩ (by decide)

/-- C1 (counterexample): the claim as stated is false — on a formula
whose LOD pattern matches and whose text also contains the fixed
table-calculation function name `RUNNING_SUM`, the analysis returns
`table_calc`, not the claimed `lod_fixed`: the table-calc scan overrides
the already-set LOD kind. -/
theorem analyze_formula_lod_overridden_by_tablecalc :
    (lodSearch "\x7bFIXED [A]:SUM([Sales])\x7d + RUNNING_SUM([Qty])".data).isSome
        = true ∧
      (analyze_formula
          "\x7bFIXED [A]:SUM([Sales])\x7d + RUNNING_SUM([Qty])").lod_type
        = some "FIXED" ∧
      (analyze_formula
          "\x7bFIXED [A]:SUM([Sales])\x7d + RUNNING_SUM([Qty])").calculation_type
        = CalculationType.table_calc ∧
      (analyze_formula
          "\x7bFIXED [A]:SUM([Sales])\x7d + RUNNING_SUM([Qty])").calculation_type
        ≠ CalculationType.lod_fixed := by decide

/-! ### C3 — Relationship Builder order and determinism -/

/-- Mapping over a lookup result is a per-element append block. -/
theorem lookup_foldl_eq (f2s : List (String × List String)) (f : FieldM)
    (acc : List RelationshipM) :
    (match f2s.lookup f.name with
     | some sheetNames =>
       sheetNames.foldl (fun acc sn => acc ++ [fieldSheetRel f sn]) acc
     | none => acc) =
      acc ++ (match f2s.lookup f.name with
              | some sheetNames => sheetNames.map (fieldSheetRel f)
              | none => []) := by
  cases f2s.lookup f.name with
  | none => simp
  | some l => simp [foldl_app_single]

/-- The field-to-sheet loop emits `fieldSheetEdges` after the
accumulator. -/
theorem fieldSheetLoop_eq (datasources : List DataSourceM)
    (f2s : List (String × List String)) (acc : List RelationshipM) :
    datasources.foldl (fun acc ds =>
        ds.fields.foldl (fun acc f =>
          match f2s.lookup f.name with
          | some sheetNames =>
            sheetNames.foldl (fun acc sn => acc ++ [fieldSheetRel f sn]) acc
          | none => acc) acc) acc =
      acc ++ fieldSheetEdges datasources f2s :=
  foldl_append_of
    (fun acc ds => foldl_append_of (fun acc f => lookup_foldl_eq f2s f acc) ds.fields acc)
    datasources acc

/-- The calculated-field loop emits `calcFieldEdges` after the
accumulator. -/
theorem calcFieldLoop_eq (datasources : List DataSourceM) (acc : List RelationshipM) :
    datasources.foldl (fun acc ds =>
        ds.calculated_fields.foldl (fun acc c =>
          c.referenced_fields.foldl (fun acc ref => acc ++ [calcFieldRel c ref]) acc)
          acc) acc =
      acc ++ calcFieldEdges datasources :=
  foldl_append_of
    (fun acc ds =>
      foldl_append_of
        (fun acc c => by
          rw [foldl_app_single])
        ds.calculated_fields acc)
    datasources acc

/-- The sheet-to-dashboard loop emits `sheetDashEdges` after the
accumulator. -/
theorem sheetDashLoop_eq (sheets : List SheetM)
    (s2d : List (String × List String)) (acc : List RelationshipM) :
    sheets.foldl (fun acc s =>
        match s2d.lookup s.name with
        | some dashNames =>
          dashNames.foldl (fun acc dn => acc ++ [sheetDashRel s dn]) acc
        | none => acc) acc =
      acc ++ sheetDashEdges sheets s2d :=
  foldl_append_of
    (fun acc s => by
      cases s2d.lookup s.name with
      | none => simp
      | some l => simp [foldl_app_single])
    sheets acc

/-- The action loop emits `actionEdges` after the accumulator. -/
theorem actionLoop_eq (dashboards : List DashboardM) (acc : List RelationshipM) :
    dashboards.foldl (fun acc d =>
        d.actions.foldl (fun acc a =>
          a.source_worksheets.foldl (fun acc sws =>
            a.target_worksheets.foldl (fun acc tws => acc ++ [actionRel d a sws tws])
              acc) acc) acc) acc =
      acc ++ actionEdges dashboards :=
  foldl_append_of
    (fun acc d =>
      foldl_append_of
        (fun acc a =>
          foldl_append_of
            (fun acc sws => by
              rw [foldl_app_single])
            a.source_worksheets acc)
        d.actions acc)
    dashboards acc

/-- The parameter loop emits `parameterEdges` after the accumulator. -/
theorem parameterLoop_eq (parameters : List ParameterM)
    (datasources : List DataSourceM) (acc : List RelationshipM) :
    parameters.foldl (fun acc p =>
        datasources.foldl (fun acc ds =>
          ds.calculated_fields.foldl (fun acc c =>
            if c.referenced_parameters.contains p.name then acc ++ [paramRel p c]
            else acc) acc) acc) acc =
      acc ++ parameterEdges parameters datasources :=
  foldl_append_of
    (fun acc p =>
      foldl_append_of
        (fun acc ds =>
          foldl_append_of
            (fun acc c => by
              by_cases hc : c.referenced_parameters.contains p.name = true
              · rw [if_pos hc, if_pos hc]
              · rw [if_neg hc, if_neg hc, List.append_nil])
            ds.calculated_fields acc)
        datasources acc)
    parameters acc

/-- C3: the relationship builder is a pure, deterministic function of its
inputs (in this embedding it is a function, so two runs on identical
inputs are definitionally equal), and its output is exactly the five
components appended in the fixed order `field_to_sheet`, `calc_to_field`,
`sheet_to_dashboard`, `action`, `parameter`, each component in the
iteration order of its owning entity list. -/
theorem build_relationships_ordered (datasources : List DataSourceM)
    (sheets : List SheetM) (dashboards : List DashboardM)
    (parameters : List ParameterM) (fieldToSheets : List (String × List String))
    (sheetToDashboards : List (String × List String)) :
    build_relationships datasources sheets dashboards parameters fieldToSheets
        sheetToDashboards =
      fieldSheetEdges datasources fieldToSheets ++ calcFieldEdges datasources ++
        sheetDashEdges sheets sheetToDashboards ++ actionEdges dashboards ++
        parameterEdges parameters datasources := by
  simp only [build_relationships]
  rw [fieldSheetLoop_eq, calcFieldLoop_eq, sheetDashLoop_eq, actionLoop_eq,
    parameterLoop_eq]
  simp [List.append_assoc]

/-! ### C7 — comparator match percentage -/

/-- Round-half-to-even of a value below `n + 1/2` is at most `n`. -/
theorem roundHalfEven_le (x : ℚ) (n : ℤ) (h : x < (n : ℚ) + 1 / 2) :
    roundHalfEven x ≤ n := by
  have hfl : ⌊x⌋ ≤ n := by
    have hx1 : x < ((n + 1 : ℤ) : ℚ) := by push_cast; linarith
    have := Int.floor_lt.mpr hx1
    omega
  have hfx : (⌊x⌋ : ℚ) ≤ x := Int.floor_le x
  unfold roundHalfEven
  split_ifs with h1 h2 h3
  · exact hfl
  · have hne : ⌊x⌋ ≠ n := by
      rintro heq
      rw [heq] at h2
      linarith
    omega
  · exact hfl
  · have heq : x - (⌊x⌋ : ℚ) = 1 / 2 := le_antisymm (not_lt.mp h2) (not_lt.mp h1)
    have hne : ⌊x⌋ ≠ n := by
      rintro hn
      rw [hn] at heq
      linarith
    omega

/-- C7 (amended): the match percentage is the two-decimal rounding of
`max 0 (100 − weighted_diff/total·10)` (the claim's formula without the
`round(·, 2)` applied by the code); it is `100` when zero items were
compared; and it is strictly below `100` whenever differences were
recorded and `total_items < 1000 · weighted2` (i.e. the penalty survives
the rounding; `weighted2` is twice the weighted difference count).  For
larger item counts the rounding can return exactly `100.0` despite a
recorded difference. -/
theorem match_percentage_spec (total : Nat) (c : DiffCounts) :
    (total = 0 → get_match_percentage total c = 100) ∧
    (0 < total → get_match_percentage total c =
      pyRound2 (max 0 (100 - weighted_diff c / total * 10))) ∧
    (0 < total → total < 1000 * weighted2 c →
      get_match_percentage total c < 100) := by
  refine ⟨fun h0 => by simp [get_match_percentage, h0], fun hpos => by
    simp [get_match_percentage, Nat.pos_iff_ne_zero.mp hpos], fun hpos hlt => ?_⟩
  have htne : total ≠ 0 := Nat.pos_iff_ne_zero.mp hpos
  simp only [get_match_percentage, if_neg htne]
  have htotpos : (0 : ℚ) < total := by exact_mod_cast hpos
  have hw2 : ((weighted2 c : ℕ) : ℚ) = 2 * weighted_diff c := by
    simp only [weighted2, weighted_diff]
    push_cast
    ring
  have hwlt : (total : ℚ) < 2000 * weighted_diff c := by
    have h1 : ((total : ℕ) : ℚ) < 1000 * ((weighted2 c : ℕ) : ℚ) := by
      exact_mod_cast hlt
    rw [hw2] at h1
    linarith
  by_cases hvle : (100 : ℚ) - weighted_diff c / total * 10 ≤ 0
  · rw [max_eq_left hvle]
    have h0 : pyRound2 0 = 0 := by
      unfold pyRound2 roundHalfEven
      norm_num
    rw [h0]
    norm_num
  · push_neg at hvle
    rw [max_eq_right hvle.le]
    have hfrac : (1 : ℚ) / 2 < 1000 * (weighted_diff c / total) := by
      rw [mul_div_assoc'] at *
      rw [lt_div_iff₀ htotpos]
      linarith
    have hkey : (100 - weighted_diff c / total * 10) * 100 < ((9999 : ℤ) : ℚ) + 1 / 2 := by
      have hexp : (100 - weighted_diff c / total * 10) * 100 =
          10000 - 1000 * (weighted_diff c / total) := by ring
      rw [hexp]
      push_cast
      linarith
    have hle : roundHalfEven ((100 - weighted_diff c / total * 10) * 100) ≤ 9999 :=
      roundHalfEven_le _ _ hkey
    unfold pyRound2
    rw [div_lt_iff₀ (by norm_num : (0 : ℚ) < 100)]
    have : (roundHalfEven ((100 - weighted_diff c / total * 10) * 100) : ℚ) ≤ 9999 := by
      exact_mod_cast hle
    linarith

/-- C7 (witness): one warning-level difference over three compared items
satisfies the hypotheses, and the reported percentage is below `100`. -/
theorem match_percentage_spec_witness :
    0 < 3 ∧ 3 < 1000 * weighted2 ⟨0, 0, 1, 0⟩ ∧
      get_match_percentage 3 ⟨0, 0, 1, 0⟩ < 100 :=
  ⟨by decide, by decide,
    (match_percentage_spec 3 ⟨0, 0, 1, 0⟩).2.2 (by decide) (by decide)⟩

/-- C7 (counterexample): the claim's exact formula ignores the `round(·, 2)`
of the code: with one warning over three items the code returns
`96.67`, not `max 0 (100 − 1/3·10) = 290/3 = 96.666…`. -/
theorem match_percentage_not_exact :
    get_match_percentage 3 ⟨0, 0, 1, 0⟩ ≠
      max 0 (100 - weighted_diff ⟨0, 0, 1, 0⟩ / 3 * 10) := by
  have hw : weighted_diff ⟨0, 0, 1, 0⟩ = 1 := by
    simp [weighted_diff]
  have harg : (100 : ℚ) - weighted_diff ⟨0, 0, 1, 0⟩ / ((3 : ℕ) : ℚ) * 10 = 290 / 3 := by
    rw [hw]
    norm_num
  have hmax : max (0 : ℚ) (290 / 3) = 290 / 3 := max_eq_right (by norm_num)
  have hfl : ⌊(290 : ℚ) / 3 * 100⌋ = 9666 := by
    rw [show (290 : ℚ) / 3 * 100 = 29000 / 3 by ring, Int.floor_eq_iff]
    constructor <;> norm_num
  have hlhs : get_match_percentage 3 ⟨0, 0, 1, 0⟩ = 9667 / 100 := by
    simp only [get_match_percentage, if_neg (by norm_num : (3 : ℕ) ≠ 0)]
    rw [show ((3 : ℕ) : ℚ) = ((3 : ℕ) : ℚ) from rfl, harg, hmax]
    unfold pyRound2 roundHalfEven
    rw [hfl]
    norm_num
  rw [hlhs, hw, show (100 : ℚ) - 1 / 3 * 10 = 290 / 3 by norm_num,
    max_eq_right (by norm_num : (0 : ℚ) ≤ 290 / 3)]
  norm_num

/-! ### C9 — join-clause operands for degenerate expressions -/

/-- C9: for every comparison expression with fewer than two child
elements, the emitted clause triple leaves both operands unset (the
source guards the child access with `len(expr_children) >= 2`), and
every clause triple emitted by the total function `parse_joins` comes
from this clause builder — join extraction never fails on such input. -/
theorem join_clause_operands_unset (dsElem expression : XElem)
    (h : (xchildren expression).length < 2) :
    (clauseOfExpr expression).left = none ∧ (clauseOfExpr expression).right = none ∧
      ∀ j ∈ parse_joins dsElem, ∀ cl ∈ j.clauses, ∃ ex, cl = clauseOfExpr ex := by
  refine ⟨?_, ?_, ?_⟩
  · simp only [clauseOfExpr]
    rw [if_neg (by omega : ¬(xchildren expression).length ≥ 2)]
  · simp only [clauseOfExpr]
    rw [if_neg (by omega : ¬(xchildren expression).length ≥ 2)]
  · intro j hj cl hcl
    unfold parse_joins at hj
    obtain ⟨relation, _, rfl⟩ := List.mem_map.mp hj
    simp only at hcl
    obtain ⟨clauseElem, _, hsome⟩ := List.mem_filterMap.mp hcl
    cases hfd : findDesc "expression" clauseElem with
    | none => rw [hfd] at hsome; cases hsome
    | some ex =>
      rw [hfd] at hsome
      exact ⟨ex, (Option.some.inj hsome).symm⟩

/-- C9 (witness): a comparison expression with a single child yields a
clause with both operands unset. -/
theorem join_clause_operands_unset_witness :
    (clauseOfExpr (XElem.mk "expression" [("op", "=")]
        [XElem.mk "expression" [("op", "[a]")] []])).left = none ∧
      (clauseOfExpr (XElem.mk "expression" [("op", "=")]
          [XElem.mk "expression" [("op", "[a]")] []])).right = none ∧
      ∀ j ∈ parse_joins (XElem.mk "datasource" [] []),
        ∀ cl ∈ j.clauses, ∃ ex, cl = clauseOfExpr ex :=
  join_clause_operands_unset (XElem.mk "datasource" [] [])
    (XElem.mk "expression" [("op", "=")] [XElem.mk "expression" [("op", "[a]")] []])
    (by decide)

/-! ### C10 — columns with calculation sub-elements and empty formulas -/

/-- C10: a column element carrying a `calculation` sub-element whose
`formula` attribute is missing or empty contributes to neither output: it
is excluded from `_parse_fields` (any column with a calculation
sub-element is), and skipped by `_parse_calculated_fields` (its formula
is falsy), so removing it from the column list leaves both outputs
unchanged. -/
theorem calc_column_with_empty_formula_omitted (l1 l2 : List XElem)
    (col calcElem : XElem)
    (hc : findDesc "calculation" col = some calcElem)
    (hf : getAttrD calcElem "formula" "" = "") :
    parse_fields_list (l1 ++ col :: l2) = parse_fields_list (l1 ++ l2) ∧
      parse_calc_fields_list (l1 ++ col :: l2) = parse_calc_fields_list (l1 ++ l2) := by
  have h1 : parseFieldOfColumn col = none := by
    unfold parseFieldOfColumn
    rw [hc]
    simp
  have h2 : parseCalcFieldOfColumn col = none := by
    unfold parseCalcFieldOfColumn
    rw [hc]
    simp [hf]
  constructor
  · unfold parse_fields_list
    simp [List.filterMap_append, List.filterMap_cons, h1]
  · unfold parse_calc_fields_list
    simp [List.filterMap_append, List.filterMap_cons, h2]

/-- C10 (witness): a concrete column whose calculation sub-element has no
`formula` attribute disappears from both outputs. -/
theorem calc_column_with_empty_formula_omitted_witness :
    parse_fields_list
        [XElem.mk "column" [("name", "[Bad]")]
          [XElem.mk "calculation" [("class", "tableau")] []],
         XElem.mk "column" [("name", "[Sales]"), ("datatype", "integer"),
           ("role", "measure")] []] =
      parse_fields_list
        [XElem.mk "column" [("name", "[Sales]"), ("datatype", "integer"),
          ("role", "measure")] []] ∧
      parse_calc_fields_list
          [XElem.mk "column" [("name", "[Bad]")]
            [XElem.mk "calculation" [("class", "tableau")] []],
           XElem.mk "column" [("name", "[Sales]"), ("datatype", "integer"),
             ("role", "measure")] []] =
        parse_calc_fields_list
          [XElem.mk "column" [("name", "[Sales]"), ("datatype", "integer"),
            ("role", "measure")] []] :=
  calc_column_with_empty_formula_omitted []
    [XElem.mk "column" [("name", "[Sales]"), ("datatype", "integer"),
      ("role", "measure")] []]
    (XElem.mk "column" [("name", "[Bad]")]
      [XElem.mk "calculation" [("class", "tableau")] []])
    (XElem.mk "calculation" [("class", "tableau")] []) rfl rfl

/-! ### C8 — validator observations -/

/-- Adding a warning issue never clears `is_valid`. -/
theorem add_warn_valid (r : VResult) (cat it msg : String) (sug : Option String) :
    (add_issue r ⟨.warning, cat, it, msg, sug⟩).is_valid = r.is_valid := rfl

/-- Adding an info issue never clears `is_valid`. -/
theorem add_info_valid (r : VResult) (cat it msg : String) (sug : Option String) :
    (add_issue r ⟨.info, cat, it, msg, sug⟩).is_valid = r.is_valid := rfl

/-- Embedding: `checked_items` increments do not touch the observables. -/
theorem chk_valid (r : VResult) : (chk r).is_valid = r.is_valid := rfl

/-- Embedding: `checked_items` increments do not touch the issue list. -/
theorem chk_calcWarn (r : VResult) : calcWarnCount (chk r) = calcWarnCount r := rfl

/-- A warning issue bumps the calculated-field warning count exactly when
its category is `calculated_field`. -/
theorem add_warn_calcWarn (r : VResult) (cat it msg : String) (sug : Option String) :
    calcWarnCount (add_issue r ⟨.warning, cat, it, msg, sug⟩) =
      calcWarnCount r + (if cat = "calculated_field" then 1 else 0) := by
  unfold add_issue calcWarnCount
  simp only [List.filter_append, List.length_append]
  by_cases hc : cat = "calculated_field"
  · subst hc
    simp [List.filter_cons]
  · rw [if_neg hc]
    simp [List.filter_cons, hc]

/-- An info issue never counts as a calculated-field warning. -/
theorem add_info_calcWarn (r : VResult) (cat it msg : String) (sug : Option String) :
    calcWarnCount (add_issue r ⟨.info, cat, it, msg, sug⟩) = calcWarnCount r := by
  unfold add_issue calcWarnCount
  simp [List.filter_append, List.filter_cons]

/-- Folding a step whose per-element effect preserves `is_valid` and adds
`g a` calculated-field warnings. -/
theorem foldl_obs_add {α : Type} (f : VResult → α → VResult) (g : α → Nat) :
    ∀ (l : List α),
      (∀ (r : VResult) (a : α), a ∈ l → (f r a).is_valid = r.is_valid ∧
        calcWarnCount (f r a) = calcWarnCount r + g a) →
      ∀ r : VResult, (l.foldl f r).is_valid = r.is_valid ∧
        calcWarnCount (l.foldl f r) = calcWarnCount r + (l.map g).sum := by
  intro l
  induction l with
  | nil => intro _ r; simp
  | cons a t ih =>
    intro h r
    rw [List.foldl_cons]
    obtain ⟨hv, hc⟩ := h r a (List.mem_cons_self a t)
    obtain ⟨ihv, ihc⟩ := ih (fun r b hb => h r b (List.mem_cons_of_mem a hb)) (f r a)
    refine ⟨by rw [ihv, hv], ?_⟩
    rw [ihc, hc, List.map_cons, List.sum_cons]
    omega

/-- Folding a step that preserves both observables preserves them. -/
theorem foldl_obs_keep {α : Type} (f : VResult → α → VResult) (l : List α)
    (h : ∀ (r : VResult) (a : α), a ∈ l → (f r a).is_valid = r.is_valid ∧
      calcWarnCount (f r a) = calcWarnCount r)
    (r : VResult) :
    (l.foldl f r).is_valid = r.is_valid ∧
      calcWarnCount (l.foldl f r) = calcWarnCount r := by
  have := foldl_obs_add f (fun _ => 0) l (fun r a ha => by simpa using h r a ha) r
  simpa using this

/-- One referenced-field check preserves `is_valid` and adds one
calculated-field warning exactly when the reference is missing. -/
theorem refCheck_obs (names : List String) (cname : String) (r : VResult)
    (ref : String) :
    (refCheck names cname r ref).is_valid = r.is_valid ∧
      calcWarnCount (refCheck names cname r ref) =
        calcWarnCount r + (if badRef names ref then 1 else 0) := by
  unfold refCheck
  by_cases hskip : (pyStartsWith ref "Parameter" || pyStartsWith ref ":") = true
  · rw [if_pos hskip]
    have hb : badRef names ref = false := by simp [badRef, hskip]
    rw [hb]
    exact ⟨rfl, by simp [chk_calcWarn]⟩
  · rw [if_neg hskip]
    by_cases hcont : names.contains ref = true
    · rw [if_pos hcont]
      have hmem : ref ∈ names := by simpa using hcont
      have hb : badRef names ref = false := by
        simp [badRef, hmem]
      rw [hb]
      exact ⟨rfl, by simp [chk_calcWarn]⟩
    · rw [if_neg hcont]
      have hmem : ref ∉ names := by simpa using hcont
      have hb : badRef names ref = true := by
        simp [badRef, hskip, hmem]
      rw [hb]
      refine ⟨by rw [add_warn_valid, chk_valid], ?_⟩
      rw [add_warn_calcWarn, chk_calcWarn]
      simp

/-- Embedding: `_validate_calculated_field` on a field with a formula preserves
`is_valid` and adds exactly its number of missing references as
calculated-field warnings. -/
theorem validate_calculated_field_obs (c : CalcFieldM) (ds : DataSourceM)
    (r : VResult) (hf : c.formula ≠ "") :
    (validate_calculated_field c ds r).is_valid = r.is_valid ∧
      calcWarnCount (validate_calculated_field c ds r) =
        calcWarnCount r + missingRefCount ds c := by
  unfold validate_calculated_field
  rw [if_neg hf]
  obtain ⟨hv, hc⟩ := foldl_obs_add (refCheck (dsFieldNames ds) c.name)
    (fun ref => if badRef (dsFieldNames ds) ref then 1 else 0)
    c.referenced_fields (fun r a _ => refCheck_obs _ _ r a) (chk r)
  have hsum : (c.referenced_fields.map
      (fun ref => if badRef (dsFieldNames ds) ref then 1 else 0)).sum =
        missingRefCount ds c := by
    rw [sum_ite_eq_length_filter]
    rfl
  by_cases hcx : c.complexity_score > 70
  · rw [if_pos hcx]
    refine ⟨by rw [add_info_valid, hv, chk_valid], ?_⟩
    rw [add_info_calcWarn, hc, chk_calcWarn, hsum]
  · rw [if_neg hcx]
    refine ⟨by rw [hv, chk_valid], ?_⟩
    rw [hc, chk_calcWarn, hsum]

/-- Embedding: `_validate_datasource` on a well-named data source whose calculated
fields all have formulas preserves `is_valid` and adds its total missing
references as calculated-field warnings. -/
theorem validate_datasource_obs (ds : DataSourceM) (r : VResult)
    (hn : ds.name ≠ "") (hcf : ∀ c ∈ ds.calculated_fields, c.formula ≠ "") :
    (validate_datasource ds r).is_valid = r.is_valid ∧
      calcWarnCount (validate_datasource ds r) =
        calcWarnCount r + (ds.calculated_fields.map (missingRefCount ds)).sum := by
  simp only [validate_datasource]
  rw [if_neg hn]
  by_cases hflds : ds.fields = [] ∧ ds.calculated_fields = []
  · rw [if_pos hflds]
    obtain ⟨hv, hc⟩ := foldl_obs_add (fun r c => validate_calculated_field c ds r)
      (missingRefCount ds) ds.calculated_fields
      (fun r c hmem => validate_calculated_field_obs c ds r (hcf c hmem))
      (add_issue (chk (chk r)) ⟨.warning, "datasource", ds.name,
        "Data source '" ++ ds.name ++ "' has no fields",
        some "Verify the data connection is valid"⟩)
    refine ⟨?_, ?_⟩
    · rw [hv, add_warn_valid, chk_valid, chk_valid]
    · rw [hc, add_warn_calcWarn, chk_calcWarn, chk_calcWarn]
      simp
  · rw [if_neg hflds]
    obtain ⟨hv, hc⟩ := foldl_obs_add (fun r c => validate_calculated_field c ds r)
      (missingRefCount ds) ds.calculated_fields
      (fun r c hmem => validate_calculated_field_obs c ds r (hcf c hmem))
      (chk (chk r))
    refine ⟨?_, ?_⟩
    · rw [hv, chk_valid, chk_valid]
    · rw [hc, chk_calcWarn, chk_calcWarn]

/-- Embedding: `_validate_structure` on a named workbook preserves the observables
(it adds only `structure`-category warnings). -/
theorem validate_structure_obs (m : WorkbookM) (r : VResult) (hn : m.name ≠ "") :
    (validate_structure m r).is_valid = r.is_valid ∧
      calcWarnCount (validate_structure m r) = calcWarnCount r := by
  simp only [validate_structure]
  rw [if_neg hn]
  by_cases h1 : m.datasources = [] <;> by_cases h2 : m.sheets = [] <;>
    simp [h1, h2, add_warn_valid, add_warn_calcWarn, chk_valid, chk_calcWarn]

/-- Embedding: `_validate_visual` preserves the observables (info issues only). -/
theorem validate_visual_obs (v : VisualM) (sn : String) (r : VResult) :
    (validate_visual v sn r).is_valid = r.is_valid ∧
      calcWarnCount (validate_visual v sn r) = calcWarnCount r := by
  simp only [validate_visual]
  split_ifs <;>
    simp [add_info_valid, add_info_calcWarn, chk_valid, chk_calcWarn]

/-- Embedding: `_validate_filter` on a filter with a field preserves the observables
(its issues are info, or warnings of category `filter`). -/
theorem validate_filter_obs (f : FilterM) (sn : String) (r : VResult)
    (hf : f.field ≠ "") :
    (validate_filter f sn r).is_valid = r.is_valid ∧
      calcWarnCount (validate_filter f sn r) = calcWarnCount r := by
  simp only [validate_filter]
  rw [if_neg hf]
  split_ifs <;>
    simp [add_info_valid, add_info_calcWarn, add_warn_valid, add_warn_calcWarn,
      chk_valid, chk_calcWarn]

/-- Embedding: `_validate_sheet` on a named sheet whose filters have fields
preserves the observables. -/
theorem validate_sheet_obs (s : SheetM) (m : WorkbookM) (r : VResult)
    (hs : s.name ≠ "") (hflt : ∀ f ∈ s.filters, f.field ≠ "") :
    (validate_sheet s m r).is_valid = r.is_valid ∧
      calcWarnCount (validate_sheet s m r) = calcWarnCount r := by
  simp only [validate_sheet]
  rw [if_neg hs]
  have hmid_v : ∀ (r : VResult),
      (if s.all_fields_used = [] then
        add_issue r ⟨.info, "sheet", s.name,
          "Sheet '" ++ s.name ++ "' has no fields on shelves",
          some "Sheet may be blank or using only text/images"⟩
      else r).is_valid = r.is_valid := by
    intro r
    by_cases h : s.all_fields_used = []
    · rw [if_pos h, add_info_valid]
    · rw [if_neg h]
  have hmid_c : ∀ (r : VResult),
      calcWarnCount (if s.all_fields_used = [] then
        add_issue r ⟨.info, "sheet", s.name,
          "Sheet '" ++ s.name ++ "' has no fields on shelves",
          some "Sheet may be blank or using only text/images"⟩
      else r) = calcWarnCount r := by
    intro r
    by_cases h : s.all_fields_used = []
    · rw [if_pos h, add_info_calcWarn]
    · rw [if_neg h]
  have htail_v : ∀ (r : VResult),
      ((match s.datasource_name with
       | some dsn =>
         if dsn = "" then r
         else if (m.datasources.map (fun ds => ds.name)).contains dsn then r
         else
           add_issue r ⟨.warning, "sheet", s.name,
             "Referenced datasource '" ++ dsn ++ "' not found", none⟩
       | none => r) : VResult).is_valid = r.is_valid := by
    intro r
    cases s.datasource_name with
    | none => rfl
    | some dsn =>
      by_cases h1 : dsn = ""
      · simp only
        rw [if_pos h1]
      · simp only
        rw [if_neg h1]
        by_cases h2 : (m.datasources.map (fun ds => ds.name)).contains dsn = true
        · rw [if_pos h2]
        · rw [if_neg h2, add_warn_valid]
  have htail_c : ∀ (r : VResult),
      calcWarnCount (match s.datasource_name with
       | some dsn =>
         if dsn = "" then r
         else if (m.datasources.map (fun ds => ds.name)).contains dsn then r
         else
           add_issue r ⟨.warning, "sheet", s.name,
             "Referenced datasource '" ++ dsn ++ "' not found", none⟩
       | none => r) = calcWarnCount r := by
    intro r
    cases s.datasource_name with
    | none => rfl
    | some dsn =>
      by_cases h1 : dsn = ""
      · simp only
        rw [if_pos h1]
      · simp only
        rw [if_neg h1]
        by_cases h2 : (m.datasources.map (fun ds => ds.name)).contains dsn = true
        · rw [if_pos h2]
        · rw [if_neg h2, add_warn_calcWarn]
          simp
  have hfold_v : ∀ (r : VResult),
      (s.filters.foldl (fun r f => validate_filter f s.name r) r).is_valid =
        r.is_valid :=
    fun r => (foldl_obs_keep _ s.filters
      (fun r f hf => validate_filter_obs f s.name r (hflt f hf)) r).1
  have hfold_c : ∀ (r : VResult),
      calcWarnCount (s.filters.foldl (fun r f => validate_filter f s.name r) r) =
        calcWarnCount r :=
    fun r => (foldl_obs_keep _ s.filters
      (fun r f hf => validate_filter_obs f s.name r (hflt f hf)) r).2
  cases hv : s.visual with
  | none =>
    refine ⟨?_, ?_⟩
    · rw [htail_v, chk_valid, hmid_v, chk_valid, hfold_v, chk_valid]
    · rw [htail_c, chk_calcWarn, hmid_c, chk_calcWarn, hfold_c, chk_calcWarn]
  | some v =>
    have hvis_v : ∀ (r : VResult), (validate_visual v s.name r).is_valid = r.is_valid :=
      fun r => (validate_visual_obs v s.name r).1
    have hvis_c : ∀ (r : VResult),
        calcWarnCount (validate_visual v s.name r) = calcWarnCount r :=
      fun r => (validate_visual_obs v s.name r).2
    refine ⟨?_, ?_⟩
    · rw [htail_v, chk_valid, hmid_v, chk_valid, hfold_v, hvis_v, chk_valid]
    · rw [htail_c, chk_calcWarn, hmid_c, chk_calcWarn, hfold_c, hvis_c, chk_calcWarn]

/-- Embedding: `_validate_dashboard` on a named dashboard preserves the observables
(warnings of categories `dashboard` and `dashboard_action` only). -/
theorem validate_dashboard_obs (d : DashboardM) (m : WorkbookM) (r : VResult)
    (hd : d.name ≠ "") :
    (validate_dashboard d m r).is_valid = r.is_valid ∧
      calcWarnCount (validate_dashboard d m r) = calcWarnCount r := by
  simp only [validate_dashboard]
  rw [if_neg hd]
  have hws := fun (r : VResult) => foldl_obs_keep
    (fun r wsName =>
      let r := chk r
      if (m.sheets.map (fun s => s.name)).contains wsName then r
      else
        add_issue r ⟨.warning, "dashboard", d.name,
          "Referenced worksheet '" ++ wsName ++ "' not found", none⟩)
    d.worksheets
    (fun r ws _ => by
      simp only
      split_ifs <;>
        simp [chk_valid, chk_calcWarn, add_warn_valid, add_warn_calcWarn]) r
  have hact := fun (r : VResult) => foldl_obs_keep
    (fun r a =>
      let r := chk r
      a.source_worksheets.foldl (fun r src =>
        if (m.sheets.map (fun s => s.name)).contains src ||
            d.worksheets.contains src then r
        else
          add_issue r ⟨.warning, "dashboard_action", a.name,
            "Action source worksheet '" ++ src ++ "' not found", none⟩) r)
    d.actions
    (fun r a _ => by
      simp only
      have hsrc := foldl_obs_keep
        (fun r src =>
          if (m.sheets.map (fun s => s.name)).contains src ||
              d.worksheets.contains src then r
          else
            add_issue r ⟨.warning, "dashboard_action", a.name,
              "Action source worksheet '" ++ src ++ "' not found", none⟩)
        a.source_worksheets
        (fun r src _ => by
          simp only
          split_ifs <;> simp [add_warn_valid, add_warn_calcWarn])
        (chk r)
      exact ⟨by rw [hsrc.1, chk_valid], by rw [hsrc.2, chk_calcWarn]⟩) r
  by_cases hz : d.zones = []
  · refine ⟨?_, ?_⟩
    · rw [(hact _).1, (hws _).1, if_pos hz, add_warn_valid, chk_valid, chk_valid]
    · rw [(hact _).2, (hws _).2, if_pos hz, add_warn_calcWarn, chk_calcWarn,
        chk_calcWarn]
      simp
  · refine ⟨?_, ?_⟩
    · rw [(hact _).1, (hws _).1, if_neg hz, chk_valid, chk_valid]
    · rw [(hact _).2, (hws _).2, if_neg hz, chk_calcWarn, chk_calcWarn]

/-- Embedding: `_validate_relationships` preserves the observables (info only). -/
theorem validate_relationships_obs (m : WorkbookM) (r : VResult) :
    (validate_relationships m r).is_valid = r.is_valid ∧
      calcWarnCount (validate_relationships m r) = calcWarnCount r := by
  simp only [validate_relationships]
  have h := foldl_obs_keep
    (fun r rel =>
      let r := chk r
      if rel.source_type = "field" then
        if relFieldFound m rel.source_name then r
        else
          add_issue r ⟨.info, "relationship", rel.source_name,
            "Relationship references unknown field '" ++ rel.source_name ++ "'",
            none⟩
      else r)
    m.relationships
    (fun r rel _ => by
      simp only
      split_ifs <;>
        simp [chk_valid, chk_calcWarn, add_info_valid, add_info_calcWarn])
    (chk r)
  exact ⟨by rw [h.1, chk_valid], by rw [h.2, chk_calcWarn]⟩

/-- C8 (amended): if a workbook's only missing-reference anomaly is a
single (calculated field, referenced field) pair — and no error-level
condition holds anywhere (the workbook, every data source, every sheet
and every dashboard are named, every calculated field has a formula,
every filter names a field) — then validation produces exactly one
warning-level issue of category `calculated_field`, and `is_valid`
remains `true`, since only error- and critical-level issues clear it. -/
theorem validator_single_missing_ref (m : WorkbookM)
    (hname : m.name ≠ "")
    (hds : ∀ ds ∈ m.datasources, ds.name ≠ "" ∧
      ∀ c ∈ ds.calculated_fields, c.formula ≠ "")
    (hsheets : ∀ s ∈ m.sheets, s.name ≠ "" ∧ ∀ f ∈ s.filters, f.field ≠ "")
    (hdash : ∀ d ∈ m.dashboards, d.name ≠ "")
    (hmiss : totalMissingRefs m = 1) :
    calcWarnCount (validate m) = 1 ∧ (validate m).is_valid = true := by
  simp only [validate]
  have hstruct := validate_structure_obs m {} hname
  have hdsf := foldl_obs_add (fun r ds => validate_datasource ds r)
    (fun ds => (ds.calculated_fields.map (missingRefCount ds)).sum)
    m.datasources
    (fun r ds hmem => validate_datasource_obs ds r (hds ds hmem).1 (hds ds hmem).2)
    (validate_structure m {})
  have hshf := foldl_obs_keep (fun r s => validate_sheet s m r) m.sheets
    (fun r s hmem => validate_sheet_obs s m r (hsheets s hmem).1 (hsheets s hmem).2)
    (m.datasources.foldl (fun r ds => validate_datasource ds r)
      (validate_structure m {}))
  have hdaf := foldl_obs_keep (fun r d => validate_dashboard d m r) m.dashboards
    (fun r d hmem => validate_dashboard_obs d m r (hdash d hmem))
    (m.sheets.foldl (fun r s => validate_sheet s m r)
      (m.datasources.foldl (fun r ds => validate_datasource ds r)
        (validate_structure m {})))
  have hrel := validate_relationships_obs m
    (m.dashboards.foldl (fun r d => validate_dashboard d m r)
      (m.sheets.foldl (fun r s => validate_sheet s m r)
        (m.datasources.foldl (fun r ds => validate_datasource ds r)
          (validate_structure m {}))))
  constructor
  · show calcWarnCount _ = 1
    rw [show ∀ (r : VResult) (x : ℤ),
        calcWarnCount { r with passed_items := x } = calcWarnCount r
      from fun _ _ => rfl]
    rw [hrel.2, hdaf.2, hshf.2, hdsf.2, hstruct.2]
    simp only [totalMissingRefs] at hmiss
    rw [show calcWarnCount ({} : VResult) = 0 from rfl, Nat.zero_add]
    exact hmiss
  · show VResult.is_valid _ = true
    rw [show ∀ (r : VResult) (x : ℤ),
        ({ r with passed_items := x } : VResult).is_valid = r.is_valid
      from fun _ _ => rfl]
    rw [hrel.1, hdaf.1, hshf.1, hdsf.1, hstruct.1]

/-- C8 (witness): the workbook whose only anomaly is one missing
reference gets exactly one calculated-field warning and stays valid. -/
theorem validator_single_missing_ref_witness :
    calcWarnCount (validate wbOneMissingRef) = 1 ∧
      (validate wbOneMissingRef).is_valid = true :=
  validator_single_missing_ref wbOneMissingRef (by decide) (by decide) (by decide)
    (by decide) (by decide)

/-- C8 (counterexample): `wbTwoMissingRefs` contains a calculated field
(`CalcA`) with exactly one referenced field name absent from its data
source (and not starting with `Parameter` or `:`), yet validation
produces two warning-level `calculated_field` issues, not exactly one,
because a second calculated field also carries a missing reference. -/
theorem validator_not_exactly_one_warning :
    (∃ ds ∈ wbTwoMissingRefs.datasources, ∃ c ∈ ds.calculated_fields,
      c.referenced_fields.length = 1 ∧ missingRefCount ds c = 1) ∧
      calcWarnCount (validate wbTwoMissingRefs) = 2 ∧
      (validate wbTwoMissingRefs).is_valid = true := by decide
